import Mathlib

/-!
# Cost model of the PAYGO-versus-license calculator (src/src/App.jsx)

A shallow embedding of the state and the pure computations of the `App`
component: the agent and group catalogs, the three update callbacks, the
`calculations` aggregator, the organisation totals, the sensitivity curve and
the break-even panel.

JavaScript numbers are embedded as `JSNum`: rationals extended with `NaN`,
`Infinity` and `-Infinity`.  The operators `+`, `-`, `*` and `/` round their
exact result to binary64 (nearest, ties to even, with gradual underflow and
overflow to an infinity), as IEEE-754 prescribes; a decimal literal of the
source is the binary64 value nearest to it.  The sign of zero is not
represented.
-/

namespace CostModel

/-! ## Numbers -/

/-- A JavaScript number: `NaN`, `Infinity`, `-Infinity` or a finite value. -/
inductive JSNum where
  | nan : JSNum
  | pinf : JSNum
  | ninf : JSNum
  | fin (q : ℚ) : JSNum
  deriving DecidableEq

namespace JSNum

/-- Rounding of a rational to the nearest integer, a tie going to the even one. -/
def roundHalfEven (x : ℚ) : ℤ :=
  if x - ⌊x⌋ < 1 / 2 then ⌊x⌋
  else if 1 / 2 < x - ⌊x⌋ then ⌊x⌋ + 1
  else if ⌊x⌋ % 2 = 0 then ⌊x⌋ else ⌊x⌋ + 1

/-- The exponent of the last place of binary64 at a magnitude `q`: 52 binary
digits below the leading one, and never below `2 ^ (-1074)`, the spacing of
the subnormal numbers. -/
def quantumExp (q : ℚ) : ℤ := max (Int.log 2 |q|) (-1022) - 52

/-- Rounding of an exact result to binary64: the nearest multiple of the last
place, ties to even; a result that rounds to `2 ^ 1024` or beyond is an infinity. -/
def round64 (q : ℚ) : JSNum :=
  if q = 0 then fin 0
  else if (2 : ℚ) ^ (1024 : ℤ) ≤
      |(roundHalfEven (q / 2 ^ quantumExp q) : ℚ) * 2 ^ quantumExp q| then
    (if 0 < q then pinf else ninf)
  else fin ((roundHalfEven (q / 2 ^ quantumExp q) : ℚ) * 2 ^ quantumExp q)

/-- A decimal literal of the source, such as `0.12`: the binary64 value nearest
to the decimal. -/
def lit (q : ℚ) : JSNum := round64 q

/-- The operator `x + y`. -/
def add : JSNum → JSNum → JSNum
  | nan, _ => nan
  | _, nan => nan
  | pinf, ninf => nan
  | ninf, pinf => nan
  | pinf, _ => pinf
  | _, pinf => pinf
  | ninf, _ => ninf
  | _, ninf => ninf
  | fin a, fin b => round64 (a + b)

/-- Unary minus. -/
def neg : JSNum → JSNum
  | nan => nan
  | pinf => ninf
  | ninf => pinf
  | fin a => fin (-a)

/-- The operator `x - y`. -/
def sub (x y : JSNum) : JSNum := add x (neg y)

/-- An infinity multiplied by a finite factor: the sign of the factor decides,
and a zero factor gives `NaN`. -/
def scaleInf (positive : Bool) (b : ℚ) : JSNum :=
  if 0 < b then (if positive then pinf else ninf)
  else if b < 0 then (if positive then ninf else pinf)
  else nan

/-- The operator `x * y`. -/
def mul : JSNum → JSNum → JSNum
  | nan, _ => nan
  | _, nan => nan
  | fin a, fin b => round64 (a * b)
  | pinf, pinf => pinf
  | ninf, ninf => pinf
  | pinf, ninf => ninf
  | ninf, pinf => ninf
  | pinf, fin b => scaleInf true b
  | ninf, fin b => scaleInf false b
  | fin a, pinf => scaleInf true a
  | fin a, ninf => scaleInf false a

/-- The operator `x / y`.  A zero divisor is taken as `+0`. -/
def div : JSNum → JSNum → JSNum
  | nan, _ => nan
  | _, nan => nan
  | fin a, fin b =>
      if b = 0 then (if 0 < a then pinf else if a < 0 then ninf else nan)
      else round64 (a / b)
  | fin _, pinf => fin 0
  | fin _, ninf => fin 0
  | pinf, fin b => if 0 ≤ b then pinf else ninf
  | ninf, fin b => if 0 ≤ b then ninf else pinf
  | pinf, pinf => nan
  | pinf, ninf => nan
  | ninf, pinf => nan
  | ninf, ninf => nan

/-- The function `Math.floor`. -/
def floor : JSNum → JSNum
  | fin a => fin (⌊a⌋ : ℤ)
  | x => x

/-- The comparison `x < y`; false whenever an operand is `NaN`. -/
def lt : JSNum → JSNum → Bool
  | nan, _ => false
  | _, nan => false
  | fin a, fin b => decide (a < b)
  | ninf, ninf => false
  | ninf, _ => true
  | _, ninf => false
  | pinf, _ => false
  | fin _, pinf => true

/-- The comparison `x > y`. -/
def gt (x y : JSNum) : Bool := lt y x

/-- The comparison `x === y` on numbers; `NaN` is not equal to itself. -/
def strictEq : JSNum → JSNum → Bool
  | nan, _ => false
  | _, nan => false
  | x, y => decide (x = y)

/-- The comparison `x <= y`. -/
def le (x y : JSNum) : Bool := lt x y || strictEq x y

/-- The comparison `x >= y`. -/
def ge (x y : JSNum) : Bool := le y x

/-- The function `isNaN` on numbers. -/
def isNaN : JSNum → Bool
  | nan => true
  | _ => false

instance : Zero JSNum := ⟨fin 0⟩
instance : Add JSNum := ⟨add⟩
instance : Sub JSNum := ⟨sub⟩
instance : Mul JSNum := ⟨mul⟩
instance : Div JSNum := ⟨div⟩
instance : NatCast JSNum := ⟨fun n => fin (n : ℚ)⟩

end JSNum

/-! ## Catalogs -/

/-- An entry of the agent catalog (`DEFAULT_AGENTS` gives the shape). -/
structure Agent where
  id : Int
  name : String
  turns : JSNum
  costPerTurn : JSNum
  color : String
  deriving DecidableEq

/-- An element slot of a JavaScript array of numbers: `none` is a hole, which
reads as `undefined`. -/
abbrev Slot := Option JSNum

/-- An entry of the group catalog (`DEFAULT_GROUPS` gives the shape). -/
structure Group where
  id : Int
  name : String
  headcount : JSNum
  sessions : JSNum
  mix : List Slot
  deriving DecidableEq

/-- The property names of an agent object. -/
inductive AgentField where
  | id | name | turns | costPerTurn | color
  deriving DecidableEq

/-- The property names of a group object. -/
inductive GroupField where
  | id | name | headcount | sessions | mix
  deriving DecidableEq

/-- The type of the value stored under an agent property. -/
@[reducible] def AgentField.type : AgentField → Type
  | .id => Int
  | .name => String
  | .turns => JSNum
  | .costPerTurn => JSNum
  | .color => String

/-- The type of the value stored under a group property. -/
@[reducible] def GroupField.type : GroupField → Type
  | .id => Int
  | .name => String
  | .headcount => JSNum
  | .sessions => JSNum
  | .mix => List Slot

/-- Property read `a[field]`. -/
def Agent.get (a : Agent) : (field : AgentField) → field.type
  | .id => a.id
  | .name => a.name
  | .turns => a.turns
  | .costPerTurn => a.costPerTurn
  | .color => a.color

/-- The object spread `{ ...a, [field]: value }`. -/
def Agent.set (a : Agent) : (field : AgentField) → field.type → Agent
  | .id, v => { a with id := v }
  | .name, v => { a with name := v }
  | .turns, v => { a with turns := v }
  | .costPerTurn, v => { a with costPerTurn := v }
  | .color, v => { a with color := v }

/-- Property read `g[field]`. -/
def Group.get (g : Group) : (field : GroupField) → field.type
  | .id => g.id
  | .name => g.name
  | .headcount => g.headcount
  | .sessions => g.sessions
  | .mix => g.mix

/-- The object spread `{ ...g, [field]: value }`. -/
def Group.set (g : Group) : (field : GroupField) → field.type → Group
  | .id, v => { g with id := v }
  | .name, v => { g with name := v }
  | .headcount, v => { g with headcount := v }
  | .sessions, v => { g with sessions := v }
  | .mix, v => { g with mix := v }

/-! ## Arrays of numbers -/

/-- The read `xs[i]` used as an arithmetic operand: an index past the end and
a hole both give `undefined`, which converts to `NaN`. -/
def readNum (xs : List Slot) (i : Nat) : JSNum :=
  match xs[i]? with
  | some (some x) => x
  | _ => JSNum.nan

/-- The assignment `xs[i] = v` on an array: an index inside the array replaces
the element, an index past the end grows the array and leaves holes before the
new element. -/
def arrayWrite (xs : List Slot) (i : Nat) (v : JSNum) : List Slot :=
  if i < xs.length then xs.set i (some v)
  else xs ++ List.replicate (i - xs.length) none ++ [some v]

/-! ## Component state and defaults -/

/-- The `useState` cells of the `App` component. -/
structure AppState where
  tab : String
  agents : List Agent
  groups : List Group
  license : JSNum
  qCadence : JSNum
  qConversation : JSNum
  qComputation : JSNum
  visibleGroups : List Int
  deriving DecidableEq

/-- The constant `LICENSE_COST`. -/
def LICENSE_COST : JSNum := JSNum.fin 20

/-- The constant `DEFAULT_AGENTS` (colours are the `COLORS` entries). -/
def DEFAULT_AGENTS : List Agent :=
  [ { id := 1, name := "Information Retrieval Agent", turns := JSNum.fin 1,
      costPerTurn := JSNum.lit (12 / 100), color := "#3b82f6" },
    { id := 2, name := "Task Agent", turns := JSNum.fin 4,
      costPerTurn := JSNum.lit (25 / 100), color := "#f59e0b" },
    { id := 3, name := "Analyst Agent", turns := JSNum.fin 8,
      costPerTurn := JSNum.lit (50 / 100), color := "#10b981" },
    { id := 4, name := "Strategy Agent", turns := JSNum.fin 3,
      costPerTurn := JSNum.lit (90 / 100), color := "#8b5cf6" } ]

/-- An array literal of finite numbers. -/
def numArray (xs : List ℚ) : List Slot := xs.map fun q => some (JSNum.fin q)

/-- The constant `DEFAULT_GROUPS`. -/
def DEFAULT_GROUPS : List Group :=
  [ { id := 1, name := "FLW", headcount := JSNum.fin 1, sessions := JSNum.fin 15,
      mix := numArray [80, 20, 0, 0] },
    { id := 2, name := "Information Worker", headcount := JSNum.fin 1,
      sessions := JSNum.fin 40, mix := numArray [30, 50, 10, 10] },
    { id := 3, name := "Manager", headcount := JSNum.fin 1, sessions := JSNum.fin 80,
      mix := numArray [15, 45, 30, 10] },
    { id := 4, name := "Executive", headcount := JSNum.fin 1, sessions := JSNum.fin 120,
      mix := numArray [5, 5, 50, 40] } ]

/-- A sample group, for four agents, whose mix sums to 90. -/
def underAllocated : Group :=
  { id := 7, name := "Pilot", headcount := JSNum.fin 3, sessions := JSNum.fin 10,
    mix := numArray [80, 10, 0, 0] }

/-- The state of the component on first render. -/
def initialState : AppState :=
  { tab := "dashboard", agents := DEFAULT_AGENTS, groups := DEFAULT_GROUPS,
    license := LICENSE_COST, qCadence := JSNum.fin 40, qConversation := JSNum.fin 5,
    qComputation := JSNum.lit (12 / 100),
    visibleGroups := DEFAULT_GROUPS.map fun g => g.id }

/-! ## Update callbacks -/

/-- The callback `updateAgent(id, field, value)`:
`setAgents(prev => prev.map(a => a.id === id ? { ...a, [field]: value } : a))`. -/
def updateAgent (id : Int) (field : AgentField) (value : field.type) (s : AppState) :
    AppState :=
  { s with agents := s.agents.map fun a => if a.id = id then a.set field value else a }

/-- The callback `updateGroup(id, field, value)`:
`setGroups(prev => prev.map(g => g.id === id ? { ...g, [field]: value } : g))`. -/
def updateGroup (id : Int) (field : GroupField) (value : field.type) (s : AppState) :
    AppState :=
  { s with groups := s.groups.map fun g => if g.id = id then g.set field value else g }

/-- The callback `updateMix(groupId, agentIdx, value)`: every group other than
`groupId` is returned as is; the named group gets a copy of its mix with
`newMix[agentIdx] = value`. -/
def updateMix (groupId : Int) (agentIdx : Nat) (value : JSNum) (s : AppState) : AppState :=
  { s with groups := s.groups.map fun g =>
      if g.id ≠ groupId then g
      else
        let newMix := arrayWrite g.mix agentIdx value
        { g with mix := newMix } }

/-! ## The aggregator -/

/-- One element of `agentCosts`. -/
structure AgentCost where
  agent : String
  cost : JSNum
  sessions : JSNum
  color : String
  deriving DecidableEq

/-- One element of `calculations`. -/
structure GroupCalc where
  group : String
  headcount : JSNum
  agentCosts : List AgentCost
  totalPerUser : JSNum
  totalGroup : JSNum
  licenseCost : JSNum
  savings : JSNum
  deriving DecidableEq

/-- The body of `agents.map((a, i) => ...)` inside `calculations`, for group `g`. -/
def agentCostOf (g : Group) (i : Nat) (a : Agent) : AgentCost :=
  let pct := readNum g.mix i / JSNum.fin 100
  let sessionsForAgent := g.sessions * pct
  let costPerSession := a.turns * a.costPerTurn
  { agent := a.name, cost := sessionsForAgent * costPerSession,
    sessions := sessionsForAgent, color := a.color }

/-- The body of `groups.map((g) => ...)` inside `calculations`. -/
def groupCalc (agents : List Agent) (license : JSNum) (g : Group) : GroupCalc :=
  let agentCosts := agents.mapIdx (agentCostOf g)
  let totalPerUser := agentCosts.foldl (fun s c => s + c.cost) 0
  let totalGroup := totalPerUser * g.headcount
  let licenseCost := license * g.headcount
  { group := g.name, headcount := g.headcount, agentCosts := agentCosts,
    totalPerUser := totalPerUser, totalGroup := totalGroup, licenseCost := licenseCost,
    savings := licenseCost - totalGroup }

/-- The memoised value `calculations`. -/
def calculations (agents : List Agent) (groups : List Group) (license : JSNum) :
    List GroupCalc :=
  groups.map (groupCalc agents license)

/-- The badge text of a group card: `calc.savings >= 0 ? "PAYGO wins" : "License wins"`
(each with its leading emoji). -/
def winsLabel (c : GroupCalc) : String :=
  if c.savings.ge 0 then "✅ PAYGO wins" else "🔴 License wins"

/-- The value `orgTotal`. -/
def orgTotal (agents : List Agent) (groups : List Group) (license : JSNum) : JSNum :=
  (calculations agents groups license).foldl (fun s c => s + c.totalGroup) 0

/-- The value `orgLicense`. -/
def orgLicense (agents : List Agent) (groups : List Group) (license : JSNum) : JSNum :=
  (calculations agents groups license).foldl (fun s c => s + c.licenseCost) 0

/-- The value `orgHeadcount`. -/
def orgHeadcount (groups : List Group) : JSNum :=
  groups.foldl (fun s g => s + g.headcount) 0

/-- The value `orgSavings`. -/
def orgSavings (agents : List Agent) (groups : List Group) (license : JSNum) : JSNum :=
  orgLicense agents groups license - orgTotal agents groups license

/-! ## Sensitivity curve -/

/-- One element of `sensitivityData`. -/
structure SensitivityPoint where
  sessions : Nat
  yourConfig : JSNum
  deriving DecidableEq

/-- The loop `for (let s = 0; s <= 250; s += 1) points.push(...)`, entered with
counter `s` and the points pushed so far. -/
def sensitivityLoop (qConversation qComputation : JSNum) (s : Nat)
    (points : List SensitivityPoint) : List SensitivityPoint :=
  if s ≤ 250 then
    sensitivityLoop qConversation qComputation (s + 1)
      (points ++ [{ sessions := s, yourConfig := (s : JSNum) * qConversation * qComputation }])
  else points
termination_by 251 - s

/-- The memoised value `sensitivityData`. -/
def sensitivityData (qConversation qComputation : JSNum) : List SensitivityPoint :=
  sensitivityLoop qConversation qComputation 0 []

/-! ## Break-even panel -/

/-- The value `be` of the break-even panel. -/
def be (qConversation qComputation license : JSNum) : JSNum :=
  if (qConversation * qComputation).gt 0
  then (license / (qConversation * qComputation)).floor
  else JSNum.pinf

/-- The value `over` of the break-even panel. -/
def over (qCadence beValue : JSNum) : Bool := qCadence.gt beValue

/-- The line under the break-even figure. -/
inductive BreakEvenMessage where
  | alwaysCheaper
  | overBy (cadence delta : JSNum)
  | underBy (cadence delta : JSNum)
  deriving DecidableEq

/-- The message chosen by `be === Infinity ? ... : over ? ... : ...`; the figure in
it is `qCadence - be` when over and `be - qCadence` otherwise.  The first line,
whose text reads "PAYGO is always cheaper (license is $0)", is chosen by
`be === Infinity` alone, whatever the license. -/
def breakEvenMessage (qCadence beValue : JSNum) : BreakEvenMessage :=
  if beValue.strictEq JSNum.pinf then BreakEvenMessage.alwaysCheaper
  else if over qCadence beValue then BreakEvenMessage.overBy qCadence (qCadence - beValue)
  else BreakEvenMessage.underBy qCadence (beValue - qCadence)

/-- The three verdicts a cadence can get against a break-even value. -/
inductive Classification where
  | over | under | atBreakEven
  deriving DecidableEq

/-- The verdict the panel shows: the red "over the break-even" line when `over`
holds, the green "under the break-even" or "always cheaper" line otherwise. -/
def classification (qCadence beValue : JSNum) : Classification :=
  match breakEvenMessage qCadence beValue with
  | BreakEvenMessage.alwaysCheaper => Classification.under
  | BreakEvenMessage.overBy _ _ => Classification.over
  | BreakEvenMessage.underBy _ _ => Classification.under

/-! ## Reset, scalar setters and the exact-value license field -/

/-- The callback `resetAll`: seven setter calls with the default values.  The
`tab` cell is not written. -/
def resetAll (s : AppState) : AppState :=
  { s with
    agents := DEFAULT_AGENTS
    groups := DEFAULT_GROUPS
    license := LICENSE_COST
    qCadence := JSNum.fin 40
    qConversation := JSNum.fin 5
    qComputation := JSNum.lit (12 / 100)
    visibleGroups := DEFAULT_GROUPS.map fun g => g.id }

/-- The state setter `setLicense(v)` returned by `useState`. -/
def setLicense (v : JSNum) (s : AppState) : AppState := { s with license := v }

/-- The state setter `setQCadence(v)` returned by `useState`. -/
def setQCadence (v : JSNum) (s : AppState) : AppState := { s with qCadence := v }

/-- The state setter `setQConversation(v)` returned by `useState`. -/
def setQConversation (v : JSNum) (s : AppState) : AppState := { s with qConversation := v }

/-- The state setter `setQComputation(v)` returned by `useState`. -/
def setQComputation (v : JSNum) (s : AppState) : AppState := { s with qComputation := v }

/-- The `min` and `max` props of a slider. -/
structure Range where
  min : JSNum
  max : JSNum

/-- The test `min <= v && v <= max`. -/
def Range.contains (r : Range) (v : JSNum) : Bool := v.ge r.min && v.le r.max

/-- Props of the "Turns / Session" slider of an agent: `min={1} max={25}`. -/
def turnsRange : Range := { min := JSNum.fin 1, max := JSNum.fin 25 }

/-- Props of the "Cost / Turn" slider of an agent: `min={0.01} max={1.50}`. -/
def costPerTurnRange : Range := { min := JSNum.lit (1 / 100), max := JSNum.lit (150 / 100) }

/-- Props of the "Sessions / Month" slider of a group: `min={1} max={400}`. -/
def sessionsRange : Range := { min := JSNum.fin 1, max := JSNum.fin 400 }

/-- Props of the "Headcount" slider of a group: `min={1} max={500}`. -/
def headcountRange : Range := { min := JSNum.fin 1, max := JSNum.fin 500 }

/-- Props of the input inside `MixSlider`: `min={0} max={100}`. -/
def mixRange : Range := { min := JSNum.fin 0, max := JSNum.fin 100 }

/-- Props of both license sliders: `min={0} max={30}`. -/
def licenseRange : Range := { min := JSNum.fin 0, max := JSNum.fin 30 }

/-- Props of the quick-scenario "Sessions / Month" slider: `min={1} max={250}`. -/
def cadenceRange : Range := { min := JSNum.fin 1, max := JSNum.fin 250 }

/-- The guard of the exact-value license field: `!isNaN(v) && v >= 0 && v <= 30`. -/
def licenseAccepts (v : JSNum) : Bool :=
  !v.isNaN && v.ge (JSNum.fin 0) && v.le (JSNum.fin 30)

/-- The `onChange` handler of the exact-value license field (the same code on
the dashboard and on the composition tab), applied to `v = parseFloat(...)`:
`if (!isNaN(v) && v >= 0 && v <= 30) setLicense(v)`. -/
def licenseExactChange (v : JSNum) (s : AppState) : AppState :=
  if licenseAccepts v then setLicense v s else s

/-! ## Quick scenario banner -/

/-- The value `quickCost = qCadence * qConversation * qComputation`. -/
def quickCost (s : AppState) : JSNum := s.qCadence * s.qConversation * s.qComputation

/-- The badge under "vs License": which side saves, and the amount shown. -/
inductive Badge where
  | licenseSaves (amount : JSNum)
  | paygoSaves (amount : JSNum)
  deriving DecidableEq

/-- The badge chosen by `quickCost > license ? ... : ...`. -/
def licenseBadge (s : AppState) : Badge :=
  if (quickCost s).gt s.license then Badge.licenseSaves (quickCost s - s.license)
  else Badge.paygoSaves (s.license - quickCost s)

/-! ## Sample quick scenarios -/

/-- The first-render state after `setQCadence(125)`, `setQConversation(1)`,
`setQComputation(0.07)` and `setLicense(8.75)`, all inside the sliders' ranges. -/
def boundaryScenario : AppState :=
  { initialState with
    qCadence := JSNum.fin 125
    qConversation := JSNum.fin 1
    qComputation := JSNum.lit (7 / 100)
    license := JSNum.fin (35 / 4) }

/-- The first-render state after `setQCadence(21)`, `setQConversation(4)` and
`setQComputation(0.25)`; every product and quotient of it is a whole number. -/
def wholeScenario : AppState :=
  { initialState with
    qCadence := JSNum.fin 21
    qConversation := JSNum.fin 4
    qComputation := JSNum.fin (1 / 4) }

/-! ## Alignment of mixes with the agent catalog -/

/-- Every group's mix has exactly as many entries as there are agents. -/
def aligned (s : AppState) : Prop := ∀ g ∈ s.groups, g.mix.length = s.agents.length

instance (s : AppState) : Decidable (aligned s) := by
  unfold aligned
  infer_instance

/-! ## Arithmetic lemmas -/

theorem jsnum_add_def (x y : JSNum) : x + y = JSNum.add x y := rfl

theorem jsnum_zero_def : (0 : JSNum) = JSNum.fin 0 := rfl

/-- The JavaScript idiom `xs.reduce((s, c) => s + f(c), 0)` adds the values
`f(c)` from left to right, starting from 0. -/
theorem reduce_eq_foldl_map (f : α → JSNum) (xs : List α) :
    xs.foldl (fun acc c => acc + f c) 0 = (xs.map f).foldl (fun acc x => acc + x) 0 := by
  rw [List.foldl_map]

/-! Finite operands: each operator rounds the exact rational result. -/

theorem jsnum_mul_fin (a b : ℚ) :
    JSNum.fin a * JSNum.fin b = JSNum.round64 (a * b) := rfl

theorem jsnum_add_fin (a b : ℚ) :
    JSNum.fin a + JSNum.fin b = JSNum.round64 (a + b) := rfl

theorem jsnum_sub_fin (a b : ℚ) :
    JSNum.fin a - JSNum.fin b = JSNum.round64 (a + -b) := rfl

theorem jsnum_div_fin (a b : ℚ) (h : b ≠ 0) :
    JSNum.fin a / JSNum.fin b = JSNum.round64 (a / b) := by
  show JSNum.div _ _ = _
  simp [JSNum.div, h]

theorem jsnum_natCast (n : Nat) : ((n : Nat) : JSNum) = JSNum.fin (n : ℚ) := rfl

theorem jsnum_gt_fin (a b : ℚ) : (JSNum.fin a).gt (JSNum.fin b) = decide (b < a) := rfl

theorem jsnum_ge_fin (a b : ℚ) : (JSNum.fin a).ge (JSNum.fin b) = decide (b ≤ a) := by
  simp only [JSNum.ge, JSNum.le, JSNum.lt, JSNum.strictEq]
  by_cases h : b < a
  · simp [h, le_of_lt h]
  · by_cases h2 : b = a
    · simp [h2]
    · have : ¬ b ≤ a := fun hle => h (lt_of_le_of_ne hle h2)
      simp [h, h2, this]

theorem jsnum_le_fin (a b : ℚ) : (JSNum.fin a).le (JSNum.fin b) = decide (a ≤ b) :=
  jsnum_ge_fin b a

/-! ## Rounding to binary64 -/

theorem round64_zero : JSNum.round64 0 = JSNum.fin 0 := by
  simp [JSNum.round64]

/-- A rational closer than one half to an integer rounds to that integer. -/
theorem roundHalfEven_eq (x : ℚ) (m : ℤ) (h : |x - m| < 1 / 2) :
    JSNum.roundHalfEven x = m := by
  have h1 := abs_lt.mp h
  by_cases hx : (m : ℚ) ≤ x
  · have hf : ⌊x⌋ = m := by
      rw [Int.floor_eq_iff]
      constructor
      · exact hx
      · linarith [h1.2]
    simp only [JSNum.roundHalfEven, hf]
    rw [if_pos h1.2]
  · have hx2 : x < m := lt_of_not_le hx
    have hf : ⌊x⌋ = m - 1 := by
      rw [Int.floor_eq_iff]
      push_cast
      constructor
      · linarith [h1.1]
      · linarith
    simp only [JSNum.roundHalfEven, hf]
    push_cast
    have hn : ¬ (x - ((m : ℚ) - 1) < 1 / 2) := by linarith [h1.1]
    have hp : (1 : ℚ) / 2 < x - ((m : ℚ) - 1) := by linarith [h1.1]
    rw [if_neg hn, if_pos hp]
    ring

/-- The last place at a magnitude between `2 ^ k` and `2 ^ (k + 1)`. -/
theorem quantumExp_eq (q : ℚ) (k : ℤ) (hlo : (2 : ℚ) ^ k ≤ |q|)
    (hhi : |q| < (2 : ℚ) ^ (k + 1)) : JSNum.quantumExp q = max k (-1022) - 52 := by
  have hpos : (0 : ℚ) < |q| := lt_of_lt_of_le (zpow_pos (by norm_num) k) hlo
  have h1 : k ≤ Int.log 2 |q| :=
    (Int.zpow_le_iff_le_log (by norm_num) hpos).mp (by exact_mod_cast hlo)
  have h2 : Int.log 2 |q| < k + 1 :=
    (Int.lt_zpow_iff_log_lt (by norm_num) hpos).mp (by exact_mod_cast hhi)
  have h3 : Int.log 2 |q| = k := by omega
  rw [JSNum.quantumExp, h3]

/-- A rational half-way above an even integer rounds down to it. -/
theorem roundHalfEven_tie_down (x : ℚ) (m : ℤ) (h : x = m + 1 / 2) (hm : m % 2 = 0) :
    JSNum.roundHalfEven x = m := by
  have hf : ⌊x⌋ = m := by
    rw [Int.floor_eq_iff]
    constructor <;> linarith
  simp only [JSNum.roundHalfEven, hf]
  have h1 : ¬ (x - (m : ℚ) < 1 / 2) := by linarith
  have h2 : ¬ ((1 : ℚ) / 2 < x - (m : ℚ)) := by linarith
  rw [if_neg h1, if_neg h2, if_pos hm]

/-- A rational half-way below an even integer rounds up to it. -/
theorem roundHalfEven_tie_up (x : ℚ) (m : ℤ) (h : x = m - 1 / 2) (hm : m % 2 = 0) :
    JSNum.roundHalfEven x = m := by
  have hf : ⌊x⌋ = m - 1 := by
    rw [Int.floor_eq_iff]
    push_cast
    constructor <;> linarith
  simp only [JSNum.roundHalfEven, hf]
  push_cast
  have h1 : ¬ (x - ((m : ℚ) - 1) < 1 / 2) := by linarith
  have h2 : ¬ ((1 : ℚ) / 2 < x - ((m : ℚ) - 1)) := by linarith
  have h3 : ¬ ((m - 1) % 2 = 0) := by omega
  rw [if_neg h1, if_neg h2, if_neg h3]
  ring

/-- Evaluation of a rounding from the rounding of its scaled value: with
`2 ^ k <= |q| < 2 ^ (k + 1)` and last place `2 ^ e`, if `q / 2 ^ e` rounds to
the integer `m` and `r = m * 2 ^ e` is below the overflow threshold, then `r`
is the binary64 rounding of `q`. -/
theorem round64_of_round (q r : ℚ) (k m e : ℤ) (hlo : (2 : ℚ) ^ k ≤ |q|)
    (hhi : |q| < (2 : ℚ) ^ (k + 1)) (he : e = max k (-1022) - 52)
    (hround : JSNum.roundHalfEven (q / 2 ^ e) = m) (hr : r = m * 2 ^ e)
    (hfin : |r| < (2 : ℚ) ^ (1024 : ℤ)) : JSNum.round64 q = JSNum.fin r := by
  have hpos : (0 : ℚ) < |q| := lt_of_lt_of_le (zpow_pos (by norm_num) k) hlo
  have hq : q ≠ 0 := abs_pos.mp hpos
  have hqe : JSNum.quantumExp q = e := by rw [quantumExp_eq q k hlo hhi, he]
  rw [JSNum.round64, if_neg hq, hqe, hround, ← hr, if_neg (not_le.mpr hfin)]

/-- Evaluation of a rounding away from a tie: a value `r = m * 2 ^ e` closer to
`q` than half a last place is the binary64 rounding of `q`. -/
theorem round64_eq (q r : ℚ) (k m e : ℤ) (hlo : (2 : ℚ) ^ k ≤ |q|)
    (hhi : |q| < (2 : ℚ) ^ (k + 1)) (he : e = max k (-1022) - 52)
    (hm : |q / 2 ^ e - m| < 1 / 2) (hr : r = m * 2 ^ e)
    (hfin : |r| < (2 : ℚ) ^ (1024 : ℤ)) : JSNum.round64 q = JSNum.fin r :=
  round64_of_round q r k m e hlo hhi he (roundHalfEven_eq _ _ hm) hr hfin

/-! ## Binary64 values used in the examples

Each lemma evaluates one literal or one operation of the examples below: the
exact result lies between `2 ^ k` and `2 ^ (k + 1)`, and the stated value is the
multiple `m * 2 ^ e` of the last place nearest to it. -/

theorem lit_0_12 :
    JSNum.lit (12 / 100) = JSNum.fin (1080863910568919 / 9007199254740992) := by
  show JSNum.round64 _ = _
  apply round64_eq _ _ (-4) 8646911284551352 (-56) <;> norm_num [abs_lt, le_abs]

theorem lit_0_25 :
    JSNum.lit (25 / 100) = JSNum.fin (1 / 4) := by
  show JSNum.round64 _ = _
  apply round64_eq _ _ (-2) 4503599627370496 (-54) <;> norm_num [abs_lt, le_abs]

theorem lit_0_50 :
    JSNum.lit (50 / 100) = JSNum.fin (1 / 2) := by
  show JSNum.round64 _ = _
  apply round64_eq _ _ (-1) 4503599627370496 (-53) <;> norm_num [abs_lt, le_abs]

theorem lit_0_90 :
    JSNum.lit (90 / 100) = JSNum.fin (8106479329266893 / 9007199254740992) := by
  show JSNum.round64 _ = _
  apply round64_eq _ _ (-1) 8106479329266893 (-53) <;> norm_num [abs_lt, le_abs]

theorem mul_5_d012 :
    JSNum.fin 5 * JSNum.fin (1080863910568919 / 9007199254740992) =
      JSNum.fin (5404319552844595 / 9007199254740992) := by
  rw [jsnum_mul_fin]
  apply round64_eq _ _ (-1) 5404319552844595 (-53) <;> norm_num [abs_lt, le_abs]

theorem div_20_cps :
    JSNum.fin 20 / JSNum.fin (5404319552844595 / 9007199254740992) =
      JSNum.fin (4691249611844267 / 140737488355328) := by
  rw [jsnum_div_fin _ _ (by norm_num)]
  apply round64_eq _ _ 5 4691249611844267 (-47) <;> norm_num [abs_lt, le_abs]

theorem mul_40_5 :
    JSNum.fin 40 * JSNum.fin 5 = JSNum.fin 200 := by
  rw [jsnum_mul_fin]
  apply round64_eq _ _ 7 7036874417766400 (-45) <;> norm_num [abs_lt, le_abs]

theorem mul_200_d012 :
    JSNum.fin 200 * JSNum.fin (1080863910568919 / 9007199254740992) = JSNum.fin 24 := by
  rw [jsnum_mul_fin]
  apply round64_eq _ _ 4 6755399441055744 (-48) <;> norm_num [abs_lt, le_abs]

theorem sub_24_20 :
    JSNum.fin 24 - JSNum.fin 20 = JSNum.fin 4 := by
  rw [jsnum_sub_fin]
  apply round64_eq _ _ 2 4503599627370496 (-50) <;> norm_num [abs_lt, le_abs]

theorem sub_40_33 :
    JSNum.fin 40 - JSNum.fin 33 = JSNum.fin 7 := by
  rw [jsnum_sub_fin]
  apply round64_eq _ _ 2 7881299347898368 (-50) <;> norm_num [abs_lt, le_abs]

theorem sub_33_33 :
    JSNum.fin 33 - JSNum.fin 33 = JSNum.fin 0 := by
  rw [jsnum_sub_fin]
  norm_num [round64_zero]

theorem mul_250_5 :
    JSNum.fin 250 * JSNum.fin 5 = JSNum.fin 1250 := by
  rw [jsnum_mul_fin]
  apply round64_eq _ _ 10 5497558138880000 (-42) <;> norm_num [abs_lt, le_abs]

theorem mul_1250_d012 :
    JSNum.fin 1250 * JSNum.fin (1080863910568919 / 9007199254740992) = JSNum.fin 150 := by
  rw [jsnum_mul_fin]
  apply round64_eq _ _ 7 5277655813324800 (-45) <;> norm_num [abs_lt, le_abs]

theorem div_80_100 :
    JSNum.fin 80 / JSNum.fin 100 = JSNum.fin (3602879701896397 / 4503599627370496) := by
  rw [jsnum_div_fin _ _ (by norm_num)]
  apply round64_eq _ _ (-1) 7205759403792794 (-53) <;> norm_num [abs_lt, le_abs]

theorem div_20_100 :
    JSNum.fin 20 / JSNum.fin 100 = JSNum.fin (3602879701896397 / 18014398509481984) := by
  rw [jsnum_div_fin _ _ (by norm_num)]
  apply round64_eq _ _ (-3) 7205759403792794 (-55) <;> norm_num [abs_lt, le_abs]

theorem div_10_100 :
    JSNum.fin 10 / JSNum.fin 100 = JSNum.fin (3602879701896397 / 36028797018963968) := by
  rw [jsnum_div_fin _ _ (by norm_num)]
  apply round64_eq _ _ (-4) 7205759403792794 (-56) <;> norm_num [abs_lt, le_abs]

theorem div_0_100 :
    JSNum.fin 0 / JSNum.fin 100 = JSNum.fin 0 := by
  rw [jsnum_div_fin _ _ (by norm_num)]
  norm_num [round64_zero]

theorem mul_1_d012 :
    JSNum.fin 1 * JSNum.fin (1080863910568919 / 9007199254740992) =
      JSNum.fin (1080863910568919 / 9007199254740992) := by
  rw [jsnum_mul_fin]
  apply round64_eq _ _ (-4) 8646911284551352 (-56) <;> norm_num [abs_lt, le_abs]

theorem mul_4_quarter :
    JSNum.fin 4 * JSNum.fin (1 / 4) = JSNum.fin 1 := by
  rw [jsnum_mul_fin]
  apply round64_eq _ _ 0 4503599627370496 (-52) <;> norm_num [abs_lt, le_abs]

theorem mul_8_half :
    JSNum.fin 8 * JSNum.fin (1 / 2) = JSNum.fin 4 := by
  rw [jsnum_mul_fin]
  apply round64_eq _ _ 2 4503599627370496 (-50) <;> norm_num [abs_lt, le_abs]

theorem mul_3_d090 :
    JSNum.fin 3 * JSNum.fin (8106479329266893 / 9007199254740992) =
      JSNum.fin (3039929748475085 / 1125899906842624) := by
  rw [jsnum_mul_fin]
  apply round64_eq _ _ 1 6079859496950170 (-51) <;> norm_num [abs_lt, le_abs]

theorem mul_0_4 :
    JSNum.fin 0 * JSNum.fin 4 = JSNum.fin 0 := by
  rw [jsnum_mul_fin]
  norm_num [round64_zero]

theorem mul_0_cps4 :
    JSNum.fin 0 * JSNum.fin (3039929748475085 / 1125899906842624) = JSNum.fin 0 := by
  rw [jsnum_mul_fin]
  norm_num [round64_zero]

theorem mul_15_d08 :
    JSNum.fin 15 * JSNum.fin (3602879701896397 / 4503599627370496) = JSNum.fin 12 := by
  rw [jsnum_mul_fin]
  apply round64_eq _ _ 3 6755399441055744 (-49) <;> norm_num [abs_lt, le_abs]

theorem mul_12_d012 :
    JSNum.fin 12 * JSNum.fin (1080863910568919 / 9007199254740992) =
      JSNum.fin (3242591731706757 / 2251799813685248) := by
  rw [jsnum_mul_fin]
  apply round64_eq _ _ 0 6485183463413514 (-52) <;> norm_num [abs_lt, le_abs]

theorem mul_15_d02 :
    JSNum.fin 15 * JSNum.fin (3602879701896397 / 18014398509481984) = JSNum.fin 3 := by
  rw [jsnum_mul_fin]
  apply round64_eq _ _ 1 6755399441055744 (-51) <;> norm_num [abs_lt, le_abs]

theorem mul_3_1 :
    JSNum.fin 3 * JSNum.fin 1 = JSNum.fin 3 := by
  rw [jsnum_mul_fin]
  apply round64_eq _ _ 1 6755399441055744 (-51) <;> norm_num [abs_lt, le_abs]

theorem mul_15_0 :
    JSNum.fin 15 * JSNum.fin 0 = JSNum.fin 0 := by
  rw [jsnum_mul_fin]
  norm_num [round64_zero]

theorem add_0_c1 :
    JSNum.fin 0 + JSNum.fin (3242591731706757 / 2251799813685248) =
      JSNum.fin (3242591731706757 / 2251799813685248) := by
  rw [jsnum_add_fin]
  apply round64_eq _ _ 0 6485183463413514 (-52) <;> norm_num [abs_lt, le_abs]

theorem add_c1_3 :
    JSNum.fin (3242591731706757 / 2251799813685248) + JSNum.fin 3 =
      JSNum.fin (2499497793190625 / 562949953421312) := by
  rw [jsnum_add_fin]
  apply round64_of_round _ _ 2 4998995586381250 (-50) _ _ _
    (roundHalfEven_tie_down _ _ (by norm_num) (by norm_num)) <;> norm_num [abs_lt, le_abs]

theorem add_total_0 :
    JSNum.fin (2499497793190625 / 562949953421312) + JSNum.fin 0 =
      JSNum.fin (2499497793190625 / 562949953421312) := by
  rw [jsnum_add_fin]
  apply round64_eq _ _ 2 4998995586381250 (-50) <;> norm_num [abs_lt, le_abs]

theorem mul_total_1 :
    JSNum.fin (2499497793190625 / 562949953421312) * JSNum.fin 1 =
      JSNum.fin (2499497793190625 / 562949953421312) := by
  rw [jsnum_mul_fin]
  apply round64_eq _ _ 2 4998995586381250 (-50) <;> norm_num [abs_lt, le_abs]

theorem mul_20_1 :
    JSNum.fin 20 * JSNum.fin 1 = JSNum.fin 20 := by
  rw [jsnum_mul_fin]
  apply round64_eq _ _ 4 5629499534213120 (-48) <;> norm_num [abs_lt, le_abs]

theorem sub_20_total :
    JSNum.fin 20 - JSNum.fin (2499497793190625 / 562949953421312) =
      JSNum.fin (8759501275235615 / 562949953421312) := by
  rw [jsnum_sub_fin]
  apply round64_eq _ _ 3 8759501275235615 (-49) <;> norm_num [abs_lt, le_abs]

theorem lit_1_44 :
    JSNum.lit (144 / 100) = JSNum.fin (3242591731706757 / 2251799813685248) := by
  show JSNum.round64 _ = _
  apply round64_eq _ _ 0 6485183463413514 (-52) <;> norm_num [abs_lt, le_abs]

theorem lit_4_44 :
    JSNum.lit (444 / 100) = JSNum.fin (4998995586381251 / 1125899906842624) := by
  show JSNum.round64 _ = _
  apply round64_eq _ _ 2 4998995586381251 (-50) <;> norm_num [abs_lt, le_abs]

theorem lit_15_56 :
    JSNum.lit (1556 / 100) = JSNum.fin (8759501275235615 / 562949953421312) := by
  show JSNum.round64 _ = _
  apply round64_eq _ _ 3 8759501275235615 (-49) <;> norm_num [abs_lt, le_abs]

theorem mul_10_d08 :
    JSNum.fin 10 * JSNum.fin (3602879701896397 / 4503599627370496) = JSNum.fin 8 := by
  rw [jsnum_mul_fin]
  apply round64_eq _ _ 3 4503599627370496 (-49) <;> norm_num [abs_lt, le_abs]

theorem mul_8_d012 :
    JSNum.fin 8 * JSNum.fin (1080863910568919 / 9007199254740992) =
      JSNum.fin (1080863910568919 / 1125899906842624) := by
  rw [jsnum_mul_fin]
  apply round64_eq _ _ (-1) 8646911284551352 (-53) <;> norm_num [abs_lt, le_abs]

theorem mul_10_d01 :
    JSNum.fin 10 * JSNum.fin (3602879701896397 / 36028797018963968) = JSNum.fin 1 := by
  rw [jsnum_mul_fin]
  apply round64_eq _ _ 0 4503599627370496 (-52) <;> norm_num [abs_lt, le_abs]

theorem mul_1_1 :
    JSNum.fin 1 * JSNum.fin 1 = JSNum.fin 1 := by
  rw [jsnum_mul_fin]
  apply round64_eq _ _ 0 4503599627370496 (-52) <;> norm_num [abs_lt, le_abs]

theorem mul_10_0 :
    JSNum.fin 10 * JSNum.fin 0 = JSNum.fin 0 := by
  rw [jsnum_mul_fin]
  norm_num [round64_zero]

theorem add_0_pc1 :
    JSNum.fin 0 + JSNum.fin (1080863910568919 / 1125899906842624) =
      JSNum.fin (1080863910568919 / 1125899906842624) := by
  rw [jsnum_add_fin]
  apply round64_eq _ _ (-1) 8646911284551352 (-53) <;> norm_num [abs_lt, le_abs]

theorem add_pc1_1 :
    JSNum.fin (1080863910568919 / 1125899906842624) + JSNum.fin 1 =
      JSNum.fin (2206763817411543 / 1125899906842624) := by
  rw [jsnum_add_fin]
  apply round64_eq _ _ 0 8827055269646172 (-52) <;> norm_num [abs_lt, le_abs]

theorem add_ptotal_0 :
    JSNum.fin (2206763817411543 / 1125899906842624) + JSNum.fin 0 =
      JSNum.fin (2206763817411543 / 1125899906842624) := by
  rw [jsnum_add_fin]
  apply round64_eq _ _ 0 8827055269646172 (-52) <;> norm_num [abs_lt, le_abs]

theorem mul_ptotal_3 :
    JSNum.fin (2206763817411543 / 1125899906842624) * JSNum.fin 3 =
      JSNum.fin (6620291452234629 / 1125899906842624) := by
  rw [jsnum_mul_fin]
  apply round64_eq _ _ 2 6620291452234629 (-50) <;> norm_num [abs_lt, le_abs]

theorem mul_half_3 :
    JSNum.fin (1 / 2) * JSNum.fin 3 = JSNum.fin (3 / 2) := by
  rw [jsnum_mul_fin]
  apply round64_eq _ _ 0 6755399441055744 (-52) <;> norm_num [abs_lt, le_abs]

theorem sub_plicense_pgroup :
    JSNum.fin (3 / 2) - JSNum.fin (6620291452234629 / 1125899906842624) =
      JSNum.fin (-4931441591970693 / 1125899906842624) := by
  rw [jsnum_sub_fin]
  apply round64_eq _ _ 2 (-4931441591970693) (-50) <;> norm_num [abs_lt, le_abs]

theorem lit_0_07 :
    JSNum.lit (7 / 100) = JSNum.fin (1261007895663739 / 18014398509481984) := by
  show JSNum.round64 _ = _
  apply round64_eq _ _ (-4) 5044031582654956 (-56) <;> norm_num [abs_lt, le_abs]

theorem mul_1_d007 :
    JSNum.fin 1 * JSNum.fin (1261007895663739 / 18014398509481984) =
      JSNum.fin (1261007895663739 / 18014398509481984) := by
  rw [jsnum_mul_fin]
  apply round64_eq _ _ (-4) 5044031582654956 (-56) <;> norm_num [abs_lt, le_abs]

theorem div_license_d007 :
    JSNum.fin (35 / 4) / JSNum.fin (1261007895663739 / 18014398509481984) =
      JSNum.fin (8796093022207999 / 70368744177664) := by
  rw [jsnum_div_fin _ _ (by norm_num)]
  apply round64_eq _ _ 6 8796093022207999 (-46) <;> norm_num [abs_lt, le_abs]

theorem mul_125_1 :
    JSNum.fin 125 * JSNum.fin 1 = JSNum.fin 125 := by
  rw [jsnum_mul_fin]
  apply round64_eq _ _ 6 8796093022208000 (-46) <;> norm_num [abs_lt, le_abs]

theorem mul_125_d007 :
    JSNum.fin 125 * JSNum.fin (1261007895663739 / 18014398509481984) = JSNum.fin (35 / 4) := by
  rw [jsnum_mul_fin]
  apply round64_eq _ _ 3 4925812092436480 (-49) <;> norm_num [abs_lt, le_abs]

theorem sub_125_124 :
    JSNum.fin 125 - JSNum.fin 124 = JSNum.fin 1 := by
  rw [jsnum_sub_fin]
  apply round64_eq _ _ 0 4503599627370496 (-52) <;> norm_num [abs_lt, le_abs]

theorem sub_license_quick :
    JSNum.fin (35 / 4) - JSNum.fin (35 / 4) = JSNum.fin 0 := by
  rw [jsnum_sub_fin]
  norm_num [round64_zero]

theorem mul_21_4 :
    JSNum.fin 21 * JSNum.fin 4 = JSNum.fin 84 := by
  rw [jsnum_mul_fin]
  apply round64_eq _ _ 6 5910974510923776 (-46) <;> norm_num [abs_lt, le_abs]

theorem mul_84_quarter :
    JSNum.fin 84 * JSNum.fin (1 / 4) = JSNum.fin 21 := by
  rw [jsnum_mul_fin]
  apply round64_eq _ _ 4 5910974510923776 (-48) <;> norm_num [abs_lt, le_abs]

theorem div_20_1 :
    JSNum.fin 20 / JSNum.fin 1 = JSNum.fin 20 := by
  rw [jsnum_div_fin _ _ (by norm_num)]
  apply round64_eq _ _ 4 5629499534213120 (-48) <;> norm_num [abs_lt, le_abs]

theorem mul_5_0 :
    JSNum.fin 5 * JSNum.fin 0 = JSNum.fin 0 := by
  rw [jsnum_mul_fin]
  norm_num [round64_zero]

/-! ## The aggregator: per-agent costs and per-group totals -/

theorem calculations_getElem? (agents : List Agent) (groups : List Group) (license : JSNum)
    (k : Nat) : (calculations agents groups license)[k]? =
      (groups[k]?).map (groupCalc agents license) := by
  simp [calculations]

theorem readNum_of_entry (xs : List Slot) (i : Nat) (m : JSNum)
    (h : xs[i]? = some (some m)) : readNum xs i = m := by
  simp [readNum, h]

/-- C1: for the group at any position `k` of the group list, the aggregator
reports a summary with one cost entry per agent; the entry at index `i` is
`sessions * (mix[i] / 100) * (turns_i * costPerTurn_i)` for the raw mix entry
`mix[i]`, and `totalPerUser` is the sum of the reported per-agent costs, added
from left to right starting from 0 as the `reduce` call does, which is that sum
of the formula over all agents.  No condition on the sum of the mix. -/
theorem calculations_per_agent_cost (agents : List Agent) (groups : List Group)
    (license : JSNum) (k : Nat) (g : Group) (hg : groups[k]? = some g) :
    ∃ r, (calculations agents groups license)[k]? = some r ∧
      r.agentCosts.length = agents.length ∧
      (∀ (i : Nat) (a : Agent) (m : JSNum), agents[i]? = some a →
        g.mix[i]? = some (some m) →
        (r.agentCosts[i]?).map AgentCost.cost =
          some (g.sessions * (m / JSNum.fin 100) * (a.turns * a.costPerTurn))) ∧
      r.totalPerUser =
        (r.agentCosts.map AgentCost.cost).foldl (fun acc x => acc + x) 0 ∧
      r.totalPerUser = (agents.mapIdx fun i a =>
        g.sessions * (readNum g.mix i / JSNum.fin 100) *
          (a.turns * a.costPerTurn)).foldl (fun acc x => acc + x) 0 := by
  refine ⟨groupCalc agents license g, ?_, ?_, ?_, ?_, ?_⟩
  · simp [calculations_getElem?, hg]
  · simp [groupCalc]
  · intro i a m ha hm
    simp [groupCalc, ha, agentCostOf, readNum_of_entry _ _ _ hm]
  · simp only [groupCalc]
    exact reduce_eq_foldl_map AgentCost.cost _
  · simp only [groupCalc]
    rw [reduce_eq_foldl_map AgentCost.cost]
    congr 1
    apply List.ext_getElem?
    intro i
    simp only [List.getElem?_map, List.getElem?_mapIdx]
    cases agents[i]? <;> simp [agentCostOf]

theorem calculations_per_agent_cost_witness :
    [underAllocated][0]? = some underAllocated ∧
    ∃ r, (calculations DEFAULT_AGENTS [underAllocated] LICENSE_COST)[0]? = some r ∧
      r.agentCosts.length = DEFAULT_AGENTS.length ∧
      (∀ (i : Nat) (a : Agent) (m : JSNum), DEFAULT_AGENTS[i]? = some a →
        underAllocated.mix[i]? = some (some m) →
        (r.agentCosts[i]?).map AgentCost.cost =
          some (underAllocated.sessions * (m / JSNum.fin 100) * (a.turns * a.costPerTurn))) ∧
      r.totalPerUser =
        (r.agentCosts.map AgentCost.cost).foldl (fun acc x => acc + x) 0 ∧
      r.totalPerUser = (DEFAULT_AGENTS.mapIdx fun i a =>
        underAllocated.sessions * (readNum underAllocated.mix i / JSNum.fin 100) *
          (a.turns * a.costPerTurn)).foldl (fun acc x => acc + x) 0 :=
  ⟨rfl, calculations_per_agent_cost DEFAULT_AGENTS [underAllocated] LICENSE_COST 0
    underAllocated rfl⟩

/-- C2: every summary the aggregator returns has
`totalGroup = totalPerUser * headcount` and `licenseCost = license * headcount`. -/
theorem calculations_group_totals (agents : List Agent) (groups : List Group)
    (license : JSNum) (r : GroupCalc) (hr : r ∈ calculations agents groups license) :
    r.totalGroup = r.totalPerUser * r.headcount ∧
    r.licenseCost = license * r.headcount := by
  simp only [calculations, List.mem_map] at hr
  obtain ⟨g, _, rfl⟩ := hr
  exact ⟨rfl, rfl⟩

theorem calculations_group_totals_witness :
    groupCalc DEFAULT_AGENTS LICENSE_COST underAllocated ∈
        calculations DEFAULT_AGENTS (DEFAULT_GROUPS ++ [underAllocated]) LICENSE_COST ∧
    (groupCalc DEFAULT_AGENTS LICENSE_COST underAllocated).totalGroup =
      (groupCalc DEFAULT_AGENTS LICENSE_COST underAllocated).totalPerUser *
        (groupCalc DEFAULT_AGENTS LICENSE_COST underAllocated).headcount ∧
    (groupCalc DEFAULT_AGENTS LICENSE_COST underAllocated).licenseCost =
      LICENSE_COST * (groupCalc DEFAULT_AGENTS LICENSE_COST underAllocated).headcount :=
  have hmem : groupCalc DEFAULT_AGENTS LICENSE_COST underAllocated ∈
      calculations DEFAULT_AGENTS (DEFAULT_GROUPS ++ [underAllocated]) LICENSE_COST := by
    simp [calculations]
  ⟨hmem, calculations_group_totals DEFAULT_AGENTS (DEFAULT_GROUPS ++ [underAllocated])
    LICENSE_COST _ hmem⟩

/-- C3: every summary the aggregator returns has
`savings = licenseCost - totalGroup`, and its badge reads "PAYGO wins" exactly
when `savings >= 0` and "License wins" exactly when not. -/
theorem calculations_savings_label (agents : List Agent) (groups : List Group)
    (license : JSNum) (r : GroupCalc) (hr : r ∈ calculations agents groups license) :
    r.savings = r.licenseCost - r.totalGroup ∧
    (winsLabel r = "✅ PAYGO wins" ↔ r.savings.ge 0 = true) ∧
    (winsLabel r = "🔴 License wins" ↔ r.savings.ge 0 = false) := by
  simp only [calculations, List.mem_map] at hr
  obtain ⟨g, _, rfl⟩ := hr
  refine ⟨rfl, ?_, ?_⟩
  · unfold winsLabel
    split <;> simp_all
  · unfold winsLabel
    split <;> simp_all

theorem calculations_savings_label_witness :
    groupCalc DEFAULT_AGENTS (JSNum.fin (1 / 2)) underAllocated ∈
        calculations DEFAULT_AGENTS [underAllocated] (JSNum.fin (1 / 2)) ∧
    (groupCalc DEFAULT_AGENTS (JSNum.fin (1 / 2)) underAllocated).savings =
        JSNum.fin (-4931441591970693 / 1125899906842624) ∧
    winsLabel (groupCalc DEFAULT_AGENTS (JSNum.fin (1 / 2)) underAllocated) =
        "🔴 License wins" :=
  have hmem : groupCalc DEFAULT_AGENTS (JSNum.fin (1 / 2)) underAllocated ∈
      calculations DEFAULT_AGENTS [underAllocated] (JSNum.fin (1 / 2)) := by
    simp [calculations]
  have hs : (groupCalc DEFAULT_AGENTS (JSNum.fin (1 / 2)) underAllocated).savings =
      JSNum.fin (-4931441591970693 / 1125899906842624) := by
    show JSNum.fin (1 / 2) * JSNum.fin 3 -
      (JSNum.fin 0
        + JSNum.fin 10 * (JSNum.fin 80 / JSNum.fin 100) * (JSNum.fin 1 * JSNum.lit (12 / 100))
        + JSNum.fin 10 * (JSNum.fin 10 / JSNum.fin 100) * (JSNum.fin 4 * JSNum.lit (25 / 100))
        + JSNum.fin 10 * (JSNum.fin 0 / JSNum.fin 100) * (JSNum.fin 8 * JSNum.lit (50 / 100))
        + JSNum.fin 10 * (JSNum.fin 0 / JSNum.fin 100) * (JSNum.fin 3 * JSNum.lit (90 / 100)))
        * JSNum.fin 3 = _
    simp only [lit_0_12, lit_0_25, lit_0_50, lit_0_90, div_80_100, div_10_100, div_0_100,
      mul_1_d012, mul_4_quarter, mul_8_half, mul_3_d090, mul_10_d08, mul_10_d01, mul_10_0,
      mul_8_d012, mul_1_1, mul_0_4, mul_0_cps4, add_0_pc1, add_pc1_1, add_ptotal_0,
      mul_ptotal_3, mul_half_3, sub_plicense_pgroup]
  have h := calculations_savings_label DEFAULT_AGENTS [underAllocated] (JSNum.fin (1 / 2))
    _ hmem
  ⟨hmem, hs, h.2.2.mpr (by rw [hs, jsnum_zero_def, jsnum_ge_fin]; norm_num)⟩

/-- C4: `orgTotal` is the sum of `totalGroup` over the summaries, `orgLicense`
the sum of `licenseCost` over the summaries, `orgHeadcount` the sum of
`headcount` over the groups, each added from left to right starting from 0 as
the `reduce` calls do, and `orgSavings = orgLicense - orgTotal`. -/
theorem org_totals (agents : List Agent) (groups : List Group) (license : JSNum) :
    orgTotal agents groups license =
      ((calculations agents groups license).map GroupCalc.totalGroup).foldl
        (fun acc x => acc + x) 0 ∧
    orgLicense agents groups license =
      ((calculations agents groups license).map GroupCalc.licenseCost).foldl
        (fun acc x => acc + x) 0 ∧
    orgHeadcount groups = (groups.map Group.headcount).foldl (fun acc x => acc + x) 0 ∧
    orgSavings agents groups license =
      orgLicense agents groups license - orgTotal agents groups license :=
  ⟨reduce_eq_foldl_map GroupCalc.totalGroup _, reduce_eq_foldl_map GroupCalc.licenseCost _,
    reduce_eq_foldl_map Group.headcount _, rfl⟩

/-! ## Break-even panel -/

theorem jsnum_strictEq_zero (x : JSNum) (h : x.strictEq 0 = true) : x = JSNum.fin 0 := by
  rw [jsnum_zero_def] at h
  cases x <;> simp_all [JSNum.strictEq]

/-- The break-even of the default quick scenario: `5 * 0.12` rounds to the
binary64 value of `0.6`, `20 / 0.6` to `33.333333333333336`, whose floor is 33. -/
theorem be_default :
    be (JSNum.fin 5) (JSNum.lit (12 / 100)) (JSNum.fin 20) = JSNum.fin 33 := by
  have hpos : (JSNum.fin (5404319552844595 / 9007199254740992)).gt 0 = true := by
    rw [jsnum_zero_def, jsnum_gt_fin]
    norm_num
  rw [be, lit_0_12, mul_5_d012, if_pos hpos, div_20_cps, JSNum.floor]
  norm_num

/-- C5: with `costPerSession = turnsPerSession * costPerTurn`, the break-even
value is `Math.floor(license / costPerSession)` when `costPerSession > 0` (for
finite operands: the floor of the binary64 rounding of the quotient), and
`Infinity` when `costPerSession === 0`. -/
theorem be_value (turnsPerSession costPerTurn license : JSNum) :
    ((turnsPerSession * costPerTurn).gt 0 = true →
      be turnsPerSession costPerTurn license =
        (license / (turnsPerSession * costPerTurn)).floor) ∧
    (∀ l q : ℚ, license = JSNum.fin l → turnsPerSession * costPerTurn = JSNum.fin q →
      0 < q → be turnsPerSession costPerTurn license = (JSNum.round64 (l / q)).floor) ∧
    ((turnsPerSession * costPerTurn).strictEq 0 = true →
      be turnsPerSession costPerTurn license = JSNum.pinf) := by
  refine ⟨?_, ?_, ?_⟩
  · intro h
    simp [be, h]
  · intro l q hl hq hpos
    have hgt : (JSNum.fin q).gt 0 = true := by
      rw [jsnum_zero_def, jsnum_gt_fin]
      exact decide_eq_true hpos
    rw [be, hq, hl, if_pos hgt, jsnum_div_fin _ _ (ne_of_gt hpos)]
  · intro h
    have h0 := jsnum_strictEq_zero _ h
    simp [be, h0, jsnum_zero_def, jsnum_gt_fin]

theorem be_value_witness :
    (JSNum.fin 5 * JSNum.lit (12 / 100)).gt 0 = true ∧
    be (JSNum.fin 5) (JSNum.lit (12 / 100)) (JSNum.fin 20) = JSNum.fin 33 ∧
    (JSNum.fin 5 * JSNum.fin 0).strictEq 0 = true ∧
    be (JSNum.fin 5) (JSNum.fin 0) (JSNum.fin 20) = JSNum.pinf := by
  have hpos : (JSNum.fin 5 * JSNum.lit (12 / 100)).gt 0 = true := by
    rw [lit_0_12, mul_5_d012, jsnum_zero_def, jsnum_gt_fin]
    norm_num
  have hzero : (JSNum.fin 5 * JSNum.fin 0).strictEq 0 = true := by
    rw [jsnum_mul_fin, jsnum_zero_def]
    norm_num [round64_zero, JSNum.strictEq]
  refine ⟨hpos, ?_, hzero, ?_⟩
  · rw [(be_value (JSNum.fin 5) (JSNum.lit (12 / 100)) (JSNum.fin 20)).1 hpos,
      lit_0_12, mul_5_d012, div_20_cps, JSNum.floor]
    norm_num
  · exact (be_value (JSNum.fin 5) (JSNum.fin 0) (JSNum.fin 20)).2.2 hzero

theorem jsnum_not_gt_pinf (x : JSNum) : x.gt JSNum.pinf = false := by
  cases x <;> rfl

theorem jsnum_strictEq_pinf (x : JSNum) (h : x.strictEq JSNum.pinf = true) :
    x = JSNum.pinf := by
  cases x <;> simp_all [JSNum.strictEq]

theorem jsnum_gt_irrefl_of_strictEq (x y : JSNum) (h : x.strictEq y = true) :
    x.gt y = false := by
  cases x <;> cases y <;> simp_all [JSNum.strictEq, JSNum.gt, JSNum.lt]

theorem jsnum_gt_asymm (x y : JSNum) (h : x.lt y = true) : x.gt y = false := by
  cases x <;> cases y <;> simp_all [JSNum.gt, JSNum.lt]
  exact le_of_lt h

theorem classification_of_over (c b : JSNum) (h : over c b = true) :
    classification c b = Classification.over := by
  have hb : b.strictEq JSNum.pinf = false := by
    cases hs : b.strictEq JSNum.pinf
    · rfl
    · rw [jsnum_strictEq_pinf b hs, over, jsnum_not_gt_pinf] at h
      exact absurd h (by decide)
  simp [classification, breakEvenMessage, hb, h]

theorem classification_of_not_over (c b : JSNum) (h : over c b = false) :
    classification c b = Classification.under := by
  cases hs : b.strictEq JSNum.pinf <;> simp [classification, breakEvenMessage, hs, h]

/-- C6, the claim refuted at cadence 33 against the break-even of the default
quick scenario: the cadence equals the break-even, and the panel classifies it
as under (with the figure 0), not as at. -/
theorem classification_at_break_even_is_under :
    be (JSNum.fin 5) (JSNum.lit (12 / 100)) (JSNum.fin 20) = JSNum.fin 33 ∧
    (JSNum.fin 33).strictEq (be (JSNum.fin 5) (JSNum.lit (12 / 100)) (JSNum.fin 20)) = true ∧
    breakEvenMessage (JSNum.fin 33) (be (JSNum.fin 5) (JSNum.lit (12 / 100)) (JSNum.fin 20)) =
      BreakEvenMessage.underBy (JSNum.fin 33) (JSNum.fin 0) ∧
    classification (JSNum.fin 33) (be (JSNum.fin 5) (JSNum.lit (12 / 100)) (JSNum.fin 20)) ≠
      Classification.atBreakEven := by
  rw [be_default]
  refine ⟨rfl, ?_, ?_, ?_⟩
  · simp [JSNum.strictEq]
  · simp [breakEvenMessage, JSNum.strictEq, over, jsnum_gt_fin, sub_33_33]
  · simp [classification, breakEvenMessage, JSNum.strictEq, over, jsnum_gt_fin]

/-- C6 as amended: the panel has two verdicts.  A cadence is classified over
when `c > be`; it is classified under when `c < be` and also when `c === be`;
in every case the verdict is over exactly when `c > be`, and never at.  Against a
break-even of `Infinity` every cadence is classified under. -/
theorem classification_two_way (c b : JSNum) :
    (c.gt b = true → classification c b = Classification.over) ∧
    (c.lt b = true → classification c b = Classification.under) ∧
    (c.strictEq b = true → classification c b = Classification.under) ∧
    (classification c b = Classification.over ↔ c.gt b = true) ∧
    classification c b ≠ Classification.atBreakEven ∧
    classification c JSNum.pinf = Classification.under := by
  have hover : ∀ x y : JSNum, over x y = x.gt y := fun _ _ => rfl
  refine ⟨fun h => classification_of_over c b h, ?_, ?_, ?_, ?_, ?_⟩
  · intro h
    exact classification_of_not_over c b (jsnum_gt_asymm c b h)
  · intro h
    exact classification_of_not_over c b (jsnum_gt_irrefl_of_strictEq c b h)
  · constructor
    · intro h
      cases hg : c.gt b
      · rw [classification_of_not_over c b hg] at h
        exact absurd h (by decide)
      · rfl
    · exact fun h => classification_of_over c b h
  · cases hg : c.gt b
    · rw [classification_of_not_over c b hg]; decide
    · rw [classification_of_over c b hg]; decide
  · exact classification_of_not_over c JSNum.pinf (jsnum_not_gt_pinf c)

theorem classification_two_way_witness :
    (JSNum.fin 40).gt (JSNum.fin 33) = true ∧
    classification (JSNum.fin 40) (JSNum.fin 33) = Classification.over ∧
    (JSNum.fin 20).lt (JSNum.fin 33) = true ∧
    classification (JSNum.fin 20) (JSNum.fin 33) = Classification.under ∧
    (JSNum.fin 33).strictEq (JSNum.fin 33) = true ∧
    classification (JSNum.fin 33) (JSNum.fin 33) = Classification.under := by
  have h1 : (JSNum.fin 40).gt (JSNum.fin 33) = true := by rw [jsnum_gt_fin]; norm_num
  have h2 : (JSNum.fin 20).lt (JSNum.fin 33) = true := by simp [JSNum.lt]; norm_num
  have h3 : (JSNum.fin 33).strictEq (JSNum.fin 33) = true := by simp [JSNum.strictEq]
  exact ⟨h1, (classification_two_way (JSNum.fin 40) (JSNum.fin 33)).1 h1,
    h2, (classification_two_way (JSNum.fin 20) (JSNum.fin 33)).2.1 h2,
    h3, (classification_two_way (JSNum.fin 33) (JSNum.fin 33)).2.2.1 h3⟩

/-! ## Sensitivity curve -/

/-- The point pushed by the loop body at counter `s`. -/
theorem sensitivityLoop_eq (t c : JSNum) (n : Nat) :
    ∀ (s : Nat) (points : List SensitivityPoint), s + n = 251 →
      sensitivityLoop t c s points =
        points ++ (List.range' s n).map fun i =>
          ({ sessions := i, yourConfig := (i : JSNum) * t * c } : SensitivityPoint) := by
  induction n with
  | zero =>
    intro s points h
    rw [sensitivityLoop]
    have : ¬ s ≤ 250 := by omega
    simp [this]
  | succ n ih =>
    intro s points h
    rw [sensitivityLoop]
    have hs : s ≤ 250 := by omega
    rw [if_pos hs, ih (s + 1) _ (by omega)]
    simp [List.range'_succ]

theorem sensitivityData_eq (t c : JSNum) :
    sensitivityData t c = (List.range 251).map fun i =>
      ({ sessions := i, yourConfig := (i : JSNum) * t * c } : SensitivityPoint) := by
  rw [sensitivityData, sensitivityLoop_eq t c 251 0 [] rfl, List.range_eq_range']
  simp

/-- C7: the curve has 251 points; the point at position `i` has cadence `i` and
cost `i * turnsPerSession * costPerTurn`; the cadences are `0, 1, ..., 250`,
strictly increasing.  The curve is a function of `turnsPerSession` and
`costPerTurn` alone, so two states that agree on them have the same curve
whatever their cadence. -/
theorem sensitivityData_points (turnsPerSession costPerTurn : JSNum) :
    (sensitivityData turnsPerSession costPerTurn).length = 251 ∧
    (∀ i : Nat, i ≤ 250 →
      (sensitivityData turnsPerSession costPerTurn)[i]? =
        some { sessions := i,
               yourConfig := (i : JSNum) * turnsPerSession * costPerTurn }) ∧
    (sensitivityData turnsPerSession costPerTurn).map SensitivityPoint.sessions =
      List.range 251 ∧
    ((sensitivityData turnsPerSession costPerTurn).map SensitivityPoint.sessions).Pairwise
      (fun x y => x < y) ∧
    (∀ s₁ s₂ : AppState, s₁.qConversation = turnsPerSession →
      s₂.qConversation = turnsPerSession → s₁.qComputation = costPerTurn →
      s₂.qComputation = costPerTurn →
      sensitivityData s₁.qConversation s₁.qComputation =
        sensitivityData s₂.qConversation s₂.qComputation) := by
  have hmap : (sensitivityData turnsPerSession costPerTurn).map SensitivityPoint.sessions =
      List.range 251 := by
    rw [sensitivityData_eq, List.map_map]
    exact List.map_id _
  refine ⟨?_, ?_, hmap, ?_, ?_⟩
  · simp [sensitivityData_eq]
  · intro i hi
    have hlt : i < 251 := by omega
    rw [sensitivityData_eq, List.getElem?_map, List.getElem?_range hlt]
    rfl
  · rw [hmap]
    exact List.pairwise_lt_range 251
  · intro s₁ s₂ h1 h2 h3 h4
    rw [h1, h2, h3, h4]

theorem sensitivityData_points_witness :
    (250 : Nat) ≤ 250 ∧
    (sensitivityData (JSNum.fin 5) (JSNum.lit (12 / 100)))[250]? =
      some { sessions := 250, yourConfig := JSNum.fin 150 } := by
  refine ⟨le_refl 250, ?_⟩
  rw [(sensitivityData_points (JSNum.fin 5) (JSNum.lit (12 / 100))).2.1 250 (le_refl 250)]
  have h : ((250 : Nat) : JSNum) * JSNum.fin 5 * JSNum.lit (12 / 100) = JSNum.fin 150 := by
    show JSNum.fin 250 * JSNum.fin 5 * JSNum.lit (12 / 100) = _
    rw [lit_0_12, mul_250_5, mul_1250_d012]
  rw [h]

/-! ## Update callbacks: what changes and what does not -/

theorem agent_get_set_same (a : Agent) (field : AgentField) (value : field.type) :
    (a.set field value).get field = value := by
  cases field <;> rfl

theorem agent_get_set_other (a : Agent) (field f : AgentField) (value : field.type)
    (h : f ≠ field) : (a.set field value).get f = a.get f := by
  cases field <;> cases f <;> first | rfl | exact absurd rfl h

theorem group_get_set_same (g : Group) (field : GroupField) (value : field.type) :
    (g.set field value).get field = value := by
  cases field <;> rfl

theorem group_get_set_other (g : Group) (field f : GroupField) (value : field.type)
    (h : f ≠ field) : (g.set field value).get f = g.get f := by
  cases field <;> cases f <;> first | rfl | exact absurd rfl h

/-- Mapping a function that fixes every element of a list returns the list. -/
theorem map_eq_self_of_forall {α : Type} (f : α → α) (xs : List α)
    (h : ∀ x ∈ xs, f x = x) : xs.map f = xs := by
  induction xs with
  | nil => rfl
  | cons x xs ih =>
    rw [List.map_cons, h x (List.mem_cons_self x xs),
      ih fun y hy => h y (List.mem_cons_of_mem x hy)]

/-- C8: `updateAgent` keeps the length of the agent catalog; every agent whose
id differs from `id` stays as it is at its position; every agent with that id
gets `value` under `field` and keeps every other property; when no agent has
the id the state is returned unchanged; groups, license and the remaining
state cells are untouched.  (Uniqueness of ids is not needed.) -/
theorem updateAgent_frame (s : AppState) (id : Int) (field : AgentField)
    (value : field.type) :
    (updateAgent id field value s).agents.length = s.agents.length ∧
    (∀ (i : Nat) (a : Agent), s.agents[i]? = some a → a.id ≠ id →
      (updateAgent id field value s).agents[i]? = some a) ∧
    (∀ (i : Nat) (a : Agent), s.agents[i]? = some a → a.id = id →
      ∃ b, (updateAgent id field value s).agents[i]? = some b ∧
        b.get field = value ∧ ∀ f : AgentField, f ≠ field → b.get f = a.get f) ∧
    ((∀ a ∈ s.agents, a.id ≠ id) → updateAgent id field value s = s) ∧
    (updateAgent id field value s).groups = s.groups ∧
    (updateAgent id field value s).license = s.license ∧
    (updateAgent id field value s).qCadence = s.qCadence ∧
    (updateAgent id field value s).qConversation = s.qConversation ∧
    (updateAgent id field value s).qComputation = s.qComputation ∧
    (updateAgent id field value s).visibleGroups = s.visibleGroups ∧
    (updateAgent id field value s).tab = s.tab := by
  refine ⟨?_, ?_, ?_, ?_, rfl, rfl, rfl, rfl, rfl, rfl, rfl⟩
  · simp [updateAgent]
  · intro i a ha hne
    simp [updateAgent, ha, hne]
  · intro i a ha heq
    refine ⟨a.set field value, ?_, agent_get_set_same a field value,
      fun f hf => agent_get_set_other a field f value hf⟩
    simp [updateAgent, ha, heq]
  · intro h
    have hmap : (s.agents.map fun a => if a.id = id then a.set field value else a) =
        s.agents :=
      map_eq_self_of_forall _ _ fun a ha => if_neg (h a ha)
    simp only [updateAgent, hmap]

theorem updateAgent_frame_witness :
    initialState.agents[1]? = some
      { id := 2, name := "Task Agent", turns := JSNum.fin 4,
        costPerTurn := JSNum.lit (25 / 100), color := "#f59e0b" } ∧
    (∃ b, (updateAgent 2 AgentField.turns (JSNum.fin 10) initialState).agents[1]? = some b ∧
      b.get AgentField.turns = JSNum.fin 10 ∧
      ∀ f : AgentField, f ≠ AgentField.turns →
        b.get f = Agent.get
          { id := 2, name := "Task Agent", turns := JSNum.fin 4,
            costPerTurn := JSNum.lit (25 / 100), color := "#f59e0b" } f) ∧
    (∀ a ∈ initialState.agents, a.id ≠ 9) ∧
    updateAgent 9 AgentField.turns (JSNum.fin 10) initialState = initialState := by
  have h9 : ∀ a ∈ initialState.agents, a.id ≠ 9 := by
    simp [initialState, DEFAULT_AGENTS]
  exact ⟨rfl,
    (updateAgent_frame initialState 2 AgentField.turns (JSNum.fin 10)).2.2.1 1 _ rfl rfl,
    h9, (updateAgent_frame initialState 9 AgentField.turns (JSNum.fin 10)).2.2.2.1 h9⟩

/-- C9: `updateGroup` keeps the length of the group catalog; every group whose
id differs from `id` stays as it is at its position; every group with that id
gets `value` under `field` and keeps every other property; when no group has
the id the state is returned unchanged.  (Uniqueness of ids is not needed.) -/
theorem updateGroup_frame (s : AppState) (id : Int) (field : GroupField)
    (value : field.type) :
    (updateGroup id field value s).groups.length = s.groups.length ∧
    (∀ (i : Nat) (g : Group), s.groups[i]? = some g → g.id ≠ id →
      (updateGroup id field value s).groups[i]? = some g) ∧
    (∀ (i : Nat) (g : Group), s.groups[i]? = some g → g.id = id →
      ∃ b, (updateGroup id field value s).groups[i]? = some b ∧
        b.get field = value ∧ ∀ f : GroupField, f ≠ field → b.get f = g.get f) ∧
    ((∀ g ∈ s.groups, g.id ≠ id) → updateGroup id field value s = s) := by
  refine ⟨?_, ?_, ?_, ?_⟩
  · simp [updateGroup]
  · intro i g hg hne
    simp [updateGroup, hg, hne]
  · intro i g hg heq
    refine ⟨g.set field value, ?_, group_get_set_same g field value,
      fun f hf => group_get_set_other g field f value hf⟩
    simp [updateGroup, hg, heq]
  · intro h
    have hmap : (s.groups.map fun g => if g.id = id then g.set field value else g) =
        s.groups :=
      map_eq_self_of_forall _ _ fun g hg => if_neg (h g hg)
    simp only [updateGroup, hmap]

theorem updateGroup_frame_witness :
    initialState.groups[3]? = some
      { id := 4, name := "Executive", headcount := JSNum.fin 1, sessions := JSNum.fin 120,
        mix := numArray [5, 5, 50, 40] } ∧
    (∃ b, (updateGroup 4 GroupField.headcount (JSNum.fin 25) initialState).groups[3]? =
        some b ∧
      b.get GroupField.headcount = JSNum.fin 25 ∧
      ∀ f : GroupField, f ≠ GroupField.headcount →
        b.get f = Group.get
          { id := 4, name := "Executive", headcount := JSNum.fin 1,
            sessions := JSNum.fin 120, mix := numArray [5, 5, 50, 40] } f) ∧
    (∀ g ∈ initialState.groups, g.id ≠ 0) ∧
    updateGroup 0 GroupField.headcount (JSNum.fin 25) initialState = initialState := by
  have h0 : ∀ g ∈ initialState.groups, g.id ≠ 0 := by
    simp [initialState, DEFAULT_GROUPS]
  exact ⟨rfl,
    (updateGroup_frame initialState 4 GroupField.headcount (JSNum.fin 25)).2.2.1 3 _ rfl rfl,
    h0, (updateGroup_frame initialState 0 GroupField.headcount (JSNum.fin 25)).2.2.2 h0⟩

theorem arrayWrite_of_lt (xs : List Slot) (i : Nat) (v : JSNum) (h : i < xs.length) :
    arrayWrite xs i v = xs.set i (some v) := by
  simp [arrayWrite, h]

/-- C10: `updateMix` leaves every group whose id differs from `groupId` as it is
at its position; for a group with that id and `agentIdx` a position of its mix,
the new mix has the same length, holds `value` at `agentIdx` and the previous
entry at every other position, and the other properties of the group are kept;
when no group has the id the state is returned unchanged.  The catalog keeps
its length and the other state cells are untouched. -/
theorem updateMix_frame (s : AppState) (groupId : Int) (agentIdx : Nat) (value : JSNum) :
    (updateMix groupId agentIdx value s).groups.length = s.groups.length ∧
    (∀ (i : Nat) (g : Group), s.groups[i]? = some g → g.id ≠ groupId →
      (updateMix groupId agentIdx value s).groups[i]? = some g) ∧
    (∀ (i : Nat) (g : Group), s.groups[i]? = some g → g.id = groupId →
      agentIdx < g.mix.length →
      ∃ b, (updateMix groupId agentIdx value s).groups[i]? = some b ∧
        b.mix.length = g.mix.length ∧
        b.mix[agentIdx]? = some (some value) ∧
        (∀ j : Nat, j ≠ agentIdx → b.mix[j]? = g.mix[j]?) ∧
        (∀ f : GroupField, f ≠ GroupField.mix → b.get f = g.get f)) ∧
    ((∀ g ∈ s.groups, g.id ≠ groupId) → updateMix groupId agentIdx value s = s) ∧
    (updateMix groupId agentIdx value s).agents = s.agents ∧
    (updateMix groupId agentIdx value s).license = s.license := by
  refine ⟨?_, ?_, ?_, ?_, rfl, rfl⟩
  · simp [updateMix]
  · intro i g hg hne
    simp [updateMix, hg, hne]
  · intro i g hg heq hidx
    refine ⟨{ g with mix := g.mix.set agentIdx (some value) }, ?_, ?_, ?_, ?_, ?_⟩
    · simp [updateMix, hg, heq, arrayWrite_of_lt _ _ _ hidx]
    · simp
    · simp [hidx]
    · intro j hj
      simp [List.getElem?_set, Ne.symm hj]
    · intro f hf
      cases f <;> first | rfl | exact absurd rfl hf
  · intro h
    have hmap : (s.groups.map fun g =>
        if g.id ≠ groupId then g
        else
          let newMix := arrayWrite g.mix agentIdx value
          { g with mix := newMix }) = s.groups :=
      map_eq_self_of_forall _ _ fun g hg => if_pos (h g hg)
    simp only [updateMix, hmap]

theorem updateMix_frame_witness :
    initialState.groups[0]? = some
      { id := 1, name := "FLW", headcount := JSNum.fin 1, sessions := JSNum.fin 15,
        mix := numArray [80, 20, 0, 0] } ∧
    2 < (numArray [80, 20, 0, 0]).length ∧
    (∃ b, (updateMix 1 2 (JSNum.fin 35) initialState).groups[0]? = some b ∧
      b.mix.length = (numArray [80, 20, 0, 0]).length ∧
      b.mix[2]? = some (some (JSNum.fin 35)) ∧
      (∀ j : Nat, j ≠ 2 → b.mix[j]? = (numArray [80, 20, 0, 0])[j]?) ∧
      (∀ f : GroupField, f ≠ GroupField.mix → b.get f = Group.get
        { id := 1, name := "FLW", headcount := JSNum.fin 1, sessions := JSNum.fin 15,
          mix := numArray [80, 20, 0, 0] } f)) ∧
    (∀ g ∈ initialState.groups, g.id ≠ 5) ∧
    updateMix 5 2 (JSNum.fin 35) initialState = initialState := by
  have h5 : ∀ g ∈ initialState.groups, g.id ≠ 5 := by
    simp [initialState, DEFAULT_GROUPS]
  have hlen : 2 < (numArray [80, 20, 0, 0]).length := by simp [numArray]
  exact ⟨rfl, hlen,
    (updateMix_frame initialState 1 2 (JSNum.fin 35)).2.2.1 0 _ rfl rfl hlen,
    h5, (updateMix_frame initialState 5 2 (JSNum.fin 35)).2.2.2.1 h5⟩

/-! ## Reset -/

/-- C11: from every state `resetAll` gives the default dataset (the four
default agents, the four default groups, license 20, cadence 40, 5 turns, 0.12
per turn), whatever the state held before: the result is the first-render state
with only the `tab` cell carried over; and resetting twice is resetting once. -/
theorem resetAll_defaults (s : AppState) :
    (resetAll s).agents = DEFAULT_AGENTS ∧
    (resetAll s).groups = DEFAULT_GROUPS ∧
    DEFAULT_AGENTS.length = 4 ∧
    DEFAULT_GROUPS.length = 4 ∧
    (resetAll s).license = JSNum.fin 20 ∧
    (resetAll s).qCadence = JSNum.fin 40 ∧
    (resetAll s).qConversation = JSNum.fin 5 ∧
    (resetAll s).qComputation = JSNum.lit (12 / 100) ∧
    resetAll s = { initialState with tab := s.tab } ∧
    resetAll (resetAll s) = resetAll s :=
  ⟨rfl, rfl, rfl, rfl, rfl, rfl, rfl, rfl, rfl, rfl⟩

/-! ## Setters and ranges -/

theorem range_contains_fin (lo hi q : ℚ) :
    Range.contains { min := JSNum.fin lo, max := JSNum.fin hi } (JSNum.fin q) =
      (decide (lo ≤ q) && decide (q ≤ hi)) := by
  simp only [Range.contains, jsnum_ge_fin, jsnum_le_fin]

theorem licenseAccepts_iff (v : JSNum) :
    licenseAccepts v = true ↔ ∃ q : ℚ, v = JSNum.fin q ∧ 0 ≤ q ∧ q ≤ 30 := by
  cases v with
  | nan => simp [licenseAccepts, JSNum.isNaN]
  | pinf => simp [licenseAccepts, JSNum.isNaN, JSNum.le, JSNum.lt, JSNum.strictEq]
  | ninf => simp [licenseAccepts, JSNum.isNaN, JSNum.ge, JSNum.le, JSNum.lt, JSNum.strictEq]
  | fin q => simp [licenseAccepts, JSNum.isNaN, jsnum_ge_fin, jsnum_le_fin]

/-- C12, the claim refuted: 100 lies outside the range [1, 25] of an agent's
turns, and `updateAgent(1, "turns", 100)` on the first-render state stores it,
so the state after the call is not the state before it. -/
theorem updateAgent_out_of_range_changes_state :
    turnsRange.contains (JSNum.fin 100) = false ∧
    (updateAgent 1 AgentField.turns (JSNum.fin 100) initialState).agents[0]? =
      some { id := 1, name := "Information Retrieval Agent", turns := JSNum.fin 100,
             costPerTurn := JSNum.lit (12 / 100), color := "#3b82f6" } ∧
    updateAgent 1 AgentField.turns (JSNum.fin 100) initialState ≠ initialState := by
  refine ⟨?_, rfl, ?_⟩
  · rw [turnsRange, range_contains_fin]
    norm_num
  · intro h
    have h2 := congrArg (fun t : AppState => (t.agents[0]?).map Agent.turns) h
    simp [updateAgent, initialState, DEFAULT_AGENTS, Agent.set] at h2

/-- C12 as amended: no setter looks at the range.  For every value `v`,
`updateAgent` stores `v` as the turns or the cost per turn of the named agent,
`updateGroup` stores it as the sessions or the headcount of the named group,
`updateMix` stores it in the named mix slot, and the license and quick-scenario
setters store it in their cell; a license setter call with a value other than
the stored one changes the state.  The one place a value is turned away is the
exact-value license field, which leaves the state as it was when its guard
fails. -/
theorem setters_store_any_value (s : AppState) (v : JSNum) :
    (∀ (id : Int) (i : Nat) (a : Agent), s.agents[i]? = some a → a.id = id →
      (updateAgent id AgentField.turns v s).agents[i]? = some { a with turns := v } ∧
      (updateAgent id AgentField.costPerTurn v s).agents[i]? =
        some { a with costPerTurn := v }) ∧
    (∀ (id : Int) (i : Nat) (g : Group), s.groups[i]? = some g → g.id = id →
      (updateGroup id GroupField.sessions v s).groups[i]? = some { g with sessions := v } ∧
      (updateGroup id GroupField.headcount v s).groups[i]? =
        some { g with headcount := v }) ∧
    (∀ (id : Int) (agentIdx i : Nat) (g : Group), s.groups[i]? = some g → g.id = id →
      agentIdx < g.mix.length →
      (updateMix id agentIdx v s).groups[i]? =
        some { g with mix := g.mix.set agentIdx (some v) }) ∧
    (setLicense v s).license = v ∧
    (setQCadence v s).qCadence = v ∧
    (setQConversation v s).qConversation = v ∧
    (setQComputation v s).qComputation = v ∧
    (v ≠ s.license → setLicense v s ≠ s) ∧
    (licenseAccepts v = false → licenseExactChange v s = s) := by
  refine ⟨?_, ?_, ?_, rfl, rfl, rfl, rfl, ?_, ?_⟩
  · intro id i a ha hid
    constructor <;> simp [updateAgent, ha, hid, Agent.set]
  · intro id i g hg hid
    constructor <;> simp [updateGroup, hg, hid, Group.set]
  · intro id agentIdx i g hg hid hidx
    simp [updateMix, hg, hid, arrayWrite_of_lt _ _ _ hidx]
  · intro hne h
    exact hne (congrArg AppState.license h)
  · intro h
    simp [licenseExactChange, h]

theorem setters_store_any_value_witness :
    turnsRange.contains (JSNum.fin 1000) = false ∧
    initialState.agents[1]? = some
      { id := 2, name := "Task Agent", turns := JSNum.fin 4,
        costPerTurn := JSNum.lit (25 / 100), color := "#f59e0b" } ∧
    (updateAgent 2 AgentField.turns (JSNum.fin 1000) initialState).agents[1]? = some
      { id := 2, name := "Task Agent", turns := JSNum.fin 1000,
        costPerTurn := JSNum.lit (25 / 100), color := "#f59e0b" } ∧
    licenseRange.contains (JSNum.fin 1000) = false ∧
    JSNum.fin 1000 ≠ initialState.license ∧
    setLicense (JSNum.fin 1000) initialState ≠ initialState := by
  have hne : JSNum.fin 1000 ≠ initialState.license := by
    simp [initialState, LICENSE_COST]
  refine ⟨?_, rfl,
    ((setters_store_any_value initialState (JSNum.fin 1000)).1 2 1 _ rfl rfl).1, ?_, hne,
    (setters_store_any_value initialState (JSNum.fin 1000)).2.2.2.2.2.2.2.1 hne⟩
  · rw [turnsRange, range_contains_fin]
    norm_num
  · rw [licenseRange, range_contains_fin]
    norm_num

/-- C13: the exact-value license field accepts `v` exactly when `v` is a finite
number with `0 <= v <= 30` (so never `NaN` or an infinity).  An accepted `v`
becomes the license; any other `v` leaves the whole state as it was.  From a state
whose license is itself acceptable, the license is `v` afterwards if and only if
`v` was accepted.  No other state cell is written in either case. -/
theorem licenseExactChange_guard (v : JSNum) (s : AppState) :
    (licenseAccepts v = true ↔ ∃ q : ℚ, v = JSNum.fin q ∧ 0 ≤ q ∧ q ≤ 30) ∧
    (licenseAccepts v = true → (licenseExactChange v s).license = v) ∧
    (licenseAccepts v = false → licenseExactChange v s = s) ∧
    (licenseAccepts s.license = true →
      ((licenseExactChange v s).license = v ↔ licenseAccepts v = true)) ∧
    (licenseExactChange v s).agents = s.agents ∧
    (licenseExactChange v s).groups = s.groups ∧
    (licenseExactChange v s).qCadence = s.qCadence ∧
    (licenseExactChange v s).qConversation = s.qConversation ∧
    (licenseExactChange v s).qComputation = s.qComputation ∧
    (licenseExactChange v s).visibleGroups = s.visibleGroups ∧
    (licenseExactChange v s).tab = s.tab := by
  have hcells : ∀ (f : AppState → Prop), f s → f (setLicense v s) →
      f (licenseExactChange v s) := by
    intro f h1 h2
    unfold licenseExactChange
    split
    · exact h2
    · exact h1
  refine ⟨licenseAccepts_iff v, ?_, ?_, ?_, ?_, ?_, ?_, ?_, ?_, ?_, ?_⟩
  · intro h
    simp [licenseExactChange, h, setLicense]
  · intro h
    simp [licenseExactChange, h]
  · intro hs
    constructor
    · intro h
      cases hv : licenseAccepts v
      · simp only [licenseExactChange, hv] at h
        rw [← hv, ← hs]
        exact congrArg licenseAccepts h.symm
      · rfl
    · intro h
      simp [licenseExactChange, h, setLicense]
  · exact hcells (fun t => t.agents = s.agents) rfl rfl
  · exact hcells (fun t => t.groups = s.groups) rfl rfl
  · exact hcells (fun t => t.qCadence = s.qCadence) rfl rfl
  · exact hcells (fun t => t.qConversation = s.qConversation) rfl rfl
  · exact hcells (fun t => t.qComputation = s.qComputation) rfl rfl
  · exact hcells (fun t => t.visibleGroups = s.visibleGroups) rfl rfl
  · exact hcells (fun t => t.tab = s.tab) rfl rfl

theorem licenseExactChange_guard_witness :
    licenseAccepts (JSNum.fin (51 / 2)) = true ∧
    (licenseExactChange (JSNum.fin (51 / 2)) initialState).license =
      JSNum.fin (51 / 2) ∧
    licenseAccepts (JSNum.fin 31) = false ∧
    licenseExactChange (JSNum.fin 31) initialState = initialState ∧
    licenseAccepts JSNum.nan = false ∧
    licenseExactChange JSNum.nan initialState = initialState := by
  have h1 : licenseAccepts (JSNum.fin (51 / 2)) = true := by
    rw [licenseAccepts_iff]
    exact ⟨51 / 2, rfl, by norm_num, by norm_num⟩
  have h2 : licenseAccepts (JSNum.fin 31) = false := by
    simp [licenseAccepts, JSNum.isNaN, jsnum_ge_fin, jsnum_le_fin]
    norm_num
  have h3 : licenseAccepts JSNum.nan = false := rfl
  exact ⟨h1, (licenseExactChange_guard (JSNum.fin (51 / 2)) initialState).2.1 h1,
    h2, (licenseExactChange_guard (JSNum.fin 31) initialState).2.2.1 h2,
    h3, (licenseExactChange_guard JSNum.nan initialState).2.2.1 h3⟩

/-! ## The default dataset -/

/-- The first summary on the default dataset, with every binary64 result. -/
theorem default_flw_values :
    ∃ r, (calculations DEFAULT_AGENTS DEFAULT_GROUPS LICENSE_COST)[0]? = some r ∧
      r.group = "FLW" ∧
      r.agentCosts.map AgentCost.cost =
        [JSNum.fin (3242591731706757 / 2251799813685248), JSNum.fin 3, JSNum.fin 0,
          JSNum.fin 0] ∧
      r.totalPerUser = JSNum.fin (2499497793190625 / 562949953421312) ∧
      r.totalGroup = JSNum.fin (2499497793190625 / 562949953421312) ∧
      r.licenseCost = JSNum.fin 20 ∧
      r.savings = JSNum.fin (8759501275235615 / 562949953421312) := by
  refine ⟨groupCalc DEFAULT_AGENTS LICENSE_COST
      { id := 1, name := "FLW", headcount := JSNum.fin 1, sessions := JSNum.fin 15,
        mix := numArray [80, 20, 0, 0] }, rfl, rfl, ?_, ?_, ?_, ?_, ?_⟩
  · show [JSNum.fin 15 * (JSNum.fin 80 / JSNum.fin 100) * (JSNum.fin 1 * JSNum.lit (12 / 100)),
        JSNum.fin 15 * (JSNum.fin 20 / JSNum.fin 100) * (JSNum.fin 4 * JSNum.lit (25 / 100)),
        JSNum.fin 15 * (JSNum.fin 0 / JSNum.fin 100) * (JSNum.fin 8 * JSNum.lit (50 / 100)),
        JSNum.fin 15 * (JSNum.fin 0 / JSNum.fin 100) * (JSNum.fin 3 * JSNum.lit (90 / 100))]
      = _
    simp only [lit_0_12, lit_0_25, lit_0_50, lit_0_90, div_80_100, div_20_100, div_0_100,
      mul_1_d012, mul_4_quarter, mul_8_half, mul_3_d090, mul_15_d08, mul_15_d02, mul_15_0,
      mul_12_d012, mul_3_1, mul_0_4, mul_0_cps4]
  · show JSNum.fin 0
        + JSNum.fin 15 * (JSNum.fin 80 / JSNum.fin 100) * (JSNum.fin 1 * JSNum.lit (12 / 100))
        + JSNum.fin 15 * (JSNum.fin 20 / JSNum.fin 100) * (JSNum.fin 4 * JSNum.lit (25 / 100))
        + JSNum.fin 15 * (JSNum.fin 0 / JSNum.fin 100) * (JSNum.fin 8 * JSNum.lit (50 / 100))
        + JSNum.fin 15 * (JSNum.fin 0 / JSNum.fin 100) * (JSNum.fin 3 * JSNum.lit (90 / 100))
      = _
    simp only [lit_0_12, lit_0_25, lit_0_50, lit_0_90, div_80_100, div_20_100, div_0_100,
      mul_1_d012, mul_4_quarter, mul_8_half, mul_3_d090, mul_15_d08, mul_15_d02, mul_15_0,
      mul_12_d012, mul_3_1, mul_0_4, mul_0_cps4, add_0_c1, add_c1_3, add_total_0]
  · show (JSNum.fin 0
        + JSNum.fin 15 * (JSNum.fin 80 / JSNum.fin 100) * (JSNum.fin 1 * JSNum.lit (12 / 100))
        + JSNum.fin 15 * (JSNum.fin 20 / JSNum.fin 100) * (JSNum.fin 4 * JSNum.lit (25 / 100))
        + JSNum.fin 15 * (JSNum.fin 0 / JSNum.fin 100) * (JSNum.fin 8 * JSNum.lit (50 / 100))
        + JSNum.fin 15 * (JSNum.fin 0 / JSNum.fin 100) * (JSNum.fin 3 * JSNum.lit (90 / 100)))
        * JSNum.fin 1 = _
    simp only [lit_0_12, lit_0_25, lit_0_50, lit_0_90, div_80_100, div_20_100, div_0_100,
      mul_1_d012, mul_4_quarter, mul_8_half, mul_3_d090, mul_15_d08, mul_15_d02, mul_15_0,
      mul_12_d012, mul_3_1, mul_0_4, mul_0_cps4, add_0_c1, add_c1_3, add_total_0,
      mul_total_1]
  · show JSNum.fin 20 * JSNum.fin 1 = _
    rw [mul_20_1]
  · show JSNum.fin 20 * JSNum.fin 1 - (JSNum.fin 0
        + JSNum.fin 15 * (JSNum.fin 80 / JSNum.fin 100) * (JSNum.fin 1 * JSNum.lit (12 / 100))
        + JSNum.fin 15 * (JSNum.fin 20 / JSNum.fin 100) * (JSNum.fin 4 * JSNum.lit (25 / 100))
        + JSNum.fin 15 * (JSNum.fin 0 / JSNum.fin 100) * (JSNum.fin 8 * JSNum.lit (50 / 100))
        + JSNum.fin 15 * (JSNum.fin 0 / JSNum.fin 100) * (JSNum.fin 3 * JSNum.lit (90 / 100)))
        * JSNum.fin 1 = _
    simp only [lit_0_12, lit_0_25, lit_0_50, lit_0_90, div_80_100, div_20_100, div_0_100,
      mul_1_d012, mul_4_quarter, mul_8_half, mul_3_d090, mul_15_d08, mul_15_d02, mul_15_0,
      mul_12_d012, mul_3_1, mul_0_4, mul_0_cps4, add_0_c1, add_c1_3, add_total_0,
      mul_total_1, mul_20_1, sub_20_total]

/-- C14, the claim refuted: on the default dataset the FLW summary has
`totalPerUser = totalGroup = 4.4399999999999995`, the binary64 result of
`0 + 1.44 + 3`, which is neither the number `4.44` of the source notation nor
the decimal 4.44. -/
theorem default_flw_total_is_not_4_44 :
    ((calculations DEFAULT_AGENTS DEFAULT_GROUPS LICENSE_COST)[0]?).map GroupCalc.totalPerUser =
      some (JSNum.fin (2499497793190625 / 562949953421312)) ∧
    ((calculations DEFAULT_AGENTS DEFAULT_GROUPS LICENSE_COST)[0]?).map GroupCalc.totalGroup =
      some (JSNum.fin (2499497793190625 / 562949953421312)) ∧
    JSNum.lit (444 / 100) = JSNum.fin (4998995586381251 / 1125899906842624) ∧
    JSNum.fin (2499497793190625 / 562949953421312) ≠ JSNum.lit (444 / 100) ∧
    JSNum.fin (2499497793190625 / 562949953421312) ≠ JSNum.fin (444 / 100) := by
  obtain ⟨r, hr, _, _, htotal, hgroup, _, _⟩ := default_flw_values
  refine ⟨?_, ?_, lit_4_44, ?_, ?_⟩
  · rw [hr, Option.map_some', htotal]
  · rw [hr, Option.map_some', hgroup]
  · rw [lit_4_44]
    intro h
    have h2 := JSNum.fin.inj h
    norm_num at h2
  · intro h
    have h2 := JSNum.fin.inj h
    norm_num at h2

/-- C14 as amended: on the default dataset the first summary is the one of the
FLW group; its per-agent costs are 1.44 (the binary64 number so written), 3, 0
and 0; `totalPerUser` and `totalGroup` are 4.4399999999999995, which is below
4.44 by less than `10 ^ (-15)` and so 4.44 to the cent; `licenseCost` is 20,
`savings` is 15.56 (the binary64 number so written), and the badge reads
"PAYGO wins". -/
theorem default_flw_summary :
    ∃ r, (calculations DEFAULT_AGENTS DEFAULT_GROUPS LICENSE_COST)[0]? = some r ∧
      r.group = "FLW" ∧
      r.agentCosts.map AgentCost.cost =
        [JSNum.lit (144 / 100), JSNum.fin 3, JSNum.fin 0, JSNum.fin 0] ∧
      r.totalPerUser = JSNum.fin (2499497793190625 / 562949953421312) ∧
      r.totalGroup = JSNum.fin (2499497793190625 / 562949953421312) ∧
      (2499497793190625 / 562949953421312 : ℚ) < 444 / 100 ∧
      (444 / 100 : ℚ) - 2499497793190625 / 562949953421312 < 1 / 10 ^ 15 ∧
      r.licenseCost = JSNum.fin 20 ∧
      r.savings = JSNum.lit (1556 / 100) ∧
      winsLabel r = "✅ PAYGO wins" := by
  obtain ⟨r, hr, hname, hcosts, htotal, hgroup, hlicense, hsavings⟩ := default_flw_values
  refine ⟨r, hr, hname, ?_, htotal, hgroup, by norm_num, by norm_num, hlicense, ?_, ?_⟩
  · rw [hcosts, lit_1_44]
  · rw [hsavings, lit_15_56]
  · rw [winsLabel, hsavings, jsnum_zero_def, jsnum_ge_fin]
    norm_num

/-- C15: in the default quick scenario `quickCost` is 24, the badge reads
"License saves" with the amount 4, the break-even is 33, and cadence 40 gets the
"over the break-even" line with the figure 7. -/
theorem default_quick_scenario :
    initialState.qCadence = JSNum.fin 40 ∧
    initialState.qConversation = JSNum.fin 5 ∧
    initialState.qComputation = JSNum.lit (12 / 100) ∧
    initialState.license = JSNum.fin 20 ∧
    quickCost initialState = JSNum.fin 24 ∧
    licenseBadge initialState = Badge.licenseSaves (JSNum.fin 4) ∧
    be initialState.qConversation initialState.qComputation initialState.license =
      JSNum.fin 33 ∧
    over initialState.qCadence
      (be initialState.qConversation initialState.qComputation initialState.license) = true ∧
    breakEvenMessage initialState.qCadence
      (be initialState.qConversation initialState.qComputation initialState.license) =
        BreakEvenMessage.overBy (JSNum.fin 40) (JSNum.fin 7) ∧
    classification initialState.qCadence
      (be initialState.qConversation initialState.qComputation initialState.license) =
        Classification.over := by
  have hq : quickCost initialState = JSNum.fin 24 := by
    show JSNum.fin 40 * JSNum.fin 5 * JSNum.lit (12 / 100) = _
    rw [lit_0_12, mul_40_5, mul_200_d012]
  have hbe : be initialState.qConversation initialState.qComputation initialState.license =
      JSNum.fin 33 := be_default
  have hover : over (JSNum.fin 40) (JSNum.fin 33) = true := by
    rw [over, jsnum_gt_fin]
    norm_num
  have hgt : (JSNum.fin 24).gt (JSNum.fin 20) = true := by
    rw [jsnum_gt_fin]
    norm_num
  refine ⟨rfl, rfl, rfl, rfl, hq, ?_, hbe, ?_, ?_, ?_⟩
  · rw [licenseBadge, hq]
    show (if (JSNum.fin 24).gt (JSNum.fin 20) = true
      then Badge.licenseSaves (JSNum.fin 24 - JSNum.fin 20)
      else Badge.paygoSaves (JSNum.fin 20 - JSNum.fin 24)) = _
    rw [if_pos hgt, sub_24_20]
  · rw [hbe]
    exact hover
  · rw [hbe]
    show breakEvenMessage (JSNum.fin 40) (JSNum.fin 33) = _
    simp [breakEvenMessage, hover, JSNum.strictEq, sub_40_33]
  · rw [hbe]
    exact classification_of_over _ _ hover

/-! ## Break-even edge cases -/

/-- A number `> 0` is a positive finite number or `Infinity`. -/
theorem jsnum_pos_cases (x : JSNum) (hx : x.gt 0 = true) :
    (∃ q : ℚ, 0 < q ∧ x = JSNum.fin q) ∨ x = JSNum.pinf := by
  rw [jsnum_zero_def] at hx
  cases x with
  | nan => simp [JSNum.gt, JSNum.lt] at hx
  | ninf => simp [JSNum.gt, JSNum.lt] at hx
  | pinf => exact Or.inr rfl
  | fin a =>
    rw [jsnum_gt_fin] at hx
    exact Or.inl ⟨a, by simpa using hx, rfl⟩

/-- The product of two copies of `2 ^ (-600)` underflows to 0. -/
theorem mul_tiny_tiny :
    JSNum.fin ((2 : ℚ) ^ (-600 : ℤ)) * JSNum.fin ((2 : ℚ) ^ (-600 : ℤ)) = JSNum.fin 0 := by
  rw [jsnum_mul_fin]
  apply round64_eq _ _ (-1200) 0 (-1074) <;> norm_num [abs_lt, le_abs]

/-- C16, the claim refuted: `2 ^ (-600)` is `> 0`, yet with it as turns per
session and as cost per turn the product underflows to 0, the guard
`costPerSession > 0` fails and the break-even for license 0 is `Infinity`, not
0; cadence 1 is then not over the break-even. -/
theorem be_zero_license_underflow :
    (JSNum.fin ((2 : ℚ) ^ (-600 : ℤ))).gt 0 = true ∧
    be (JSNum.fin ((2 : ℚ) ^ (-600 : ℤ))) (JSNum.fin ((2 : ℚ) ^ (-600 : ℤ))) (JSNum.fin 0) =
      JSNum.pinf ∧
    be (JSNum.fin ((2 : ℚ) ^ (-600 : ℤ))) (JSNum.fin ((2 : ℚ) ^ (-600 : ℤ))) (JSNum.fin 0) ≠
      JSNum.fin 0 ∧
    (JSNum.fin 1).gt 0 = true ∧
    over (JSNum.fin 1)
      (be (JSNum.fin ((2 : ℚ) ^ (-600 : ℤ))) (JSNum.fin ((2 : ℚ) ^ (-600 : ℤ)))
        (JSNum.fin 0)) = false ∧
    classification (JSNum.fin 1)
      (be (JSNum.fin ((2 : ℚ) ^ (-600 : ℤ))) (JSNum.fin ((2 : ℚ) ^ (-600 : ℤ)))
        (JSNum.fin 0)) = Classification.under := by
  have hbe : be (JSNum.fin ((2 : ℚ) ^ (-600 : ℤ))) (JSNum.fin ((2 : ℚ) ^ (-600 : ℤ)))
      (JSNum.fin 0) = JSNum.pinf := by
    have h0 : (JSNum.fin 0).gt 0 = false := by
      rw [jsnum_zero_def, jsnum_gt_fin]
      simp
    rw [be, mul_tiny_tiny, h0]
    rfl
  have hpos : (JSNum.fin ((2 : ℚ) ^ (-600 : ℤ))).gt 0 = true := by
    rw [jsnum_zero_def, jsnum_gt_fin]
    norm_num
  have h1 : (JSNum.fin 1).gt 0 = true := by
    rw [jsnum_zero_def, jsnum_gt_fin]
    norm_num
  rw [hbe]
  exact ⟨hpos, rfl, by simp, h1, jsnum_not_gt_pinf _,
    classification_of_not_over _ _ (jsnum_not_gt_pinf _)⟩

/-- C16 as amended: when the product `costPerSession = turnsPerSession *
costPerTurn`, as the code computes it, is `> 0`, the break-even for license 0
is 0, and every cadence `> 0` is then over the break-even and gets the over
verdict. -/
theorem be_zero_license (turnsPerSession costPerTurn : JSNum)
    (hcps : (turnsPerSession * costPerTurn).gt 0 = true) :
    be turnsPerSession costPerTurn (JSNum.fin 0) = JSNum.fin 0 ∧
    (∀ cadence : JSNum, cadence.gt 0 = true →
      over cadence (be turnsPerSession costPerTurn (JSNum.fin 0)) = true ∧
      classification cadence (be turnsPerSession costPerTurn (JSNum.fin 0)) =
        Classification.over) := by
  have hbe : be turnsPerSession costPerTurn (JSNum.fin 0) = JSNum.fin 0 := by
    rw [be, if_pos hcps]
    rcases jsnum_pos_cases _ hcps with ⟨q, hq, h⟩ | h
    · rw [h, jsnum_div_fin _ _ (ne_of_gt hq), zero_div, round64_zero]
      simp [JSNum.floor]
    · rw [h]
      show JSNum.floor (JSNum.div _ _) = _
      simp [JSNum.div, JSNum.floor]
  refine ⟨hbe, ?_⟩
  intro cadence hcad
  rw [hbe]
  have hover : over cadence (JSNum.fin 0) = true := hcad
  exact ⟨hover, classification_of_over _ _ hover⟩

theorem be_zero_license_witness :
    (JSNum.fin 5 * JSNum.lit (12 / 100)).gt 0 = true ∧
    be (JSNum.fin 5) (JSNum.lit (12 / 100)) (JSNum.fin 0) = JSNum.fin 0 ∧
    (JSNum.fin 1).gt 0 = true ∧
    classification (JSNum.fin 1) (be (JSNum.fin 5) (JSNum.lit (12 / 100)) (JSNum.fin 0)) =
      Classification.over := by
  have hpos : (JSNum.fin 5 * JSNum.lit (12 / 100)).gt 0 = true := by
    rw [lit_0_12, mul_5_d012, jsnum_zero_def, jsnum_gt_fin]
    norm_num
  have h1 : (JSNum.fin 1).gt 0 = true := by
    rw [jsnum_zero_def, jsnum_gt_fin]
    norm_num
  exact ⟨hpos, (be_zero_license _ _ hpos).1, h1, ((be_zero_license _ _ hpos).2 _ h1).2⟩

theorem jsnum_mul_zero_not_gt (x : JSNum) : (x * JSNum.fin 0).gt 0 = false := by
  rw [jsnum_zero_def]
  cases x with
  | nan => rfl
  | pinf =>
    show JSNum.gt (JSNum.mul _ _) _ = _
    simp [JSNum.mul, JSNum.scaleInf, JSNum.gt, JSNum.lt]
  | ninf =>
    show JSNum.gt (JSNum.mul _ _) _ = _
    simp [JSNum.mul, JSNum.scaleInf, JSNum.gt, JSNum.lt]
  | fin a =>
    rw [jsnum_mul_fin, mul_zero, round64_zero, jsnum_gt_fin]
    simp

/-- C17: with `costPerTurn = 0` the break-even is `Infinity` for every
`turnsPerSession` and every license, and every current cadence gets the
"always cheaper" line: it is never over, and its verdict is under. -/
theorem be_zero_cost (turnsPerSession license cadence : JSNum) :
    be turnsPerSession (JSNum.fin 0) license = JSNum.pinf ∧
    over cadence (be turnsPerSession (JSNum.fin 0) license) = false ∧
    breakEvenMessage cadence (be turnsPerSession (JSNum.fin 0) license) =
      BreakEvenMessage.alwaysCheaper ∧
    classification cadence (be turnsPerSession (JSNum.fin 0) license) =
      Classification.under := by
  have hbe : be turnsPerSession (JSNum.fin 0) license = JSNum.pinf := by
    simp [be, jsnum_mul_zero_not_gt]
  rw [hbe]
  refine ⟨rfl, jsnum_not_gt_pinf cadence, ?_, ?_⟩
  · simp [breakEvenMessage, JSNum.strictEq]
  · exact classification_of_not_over _ _ (jsnum_not_gt_pinf cadence)

/-! ## Alignment of mixes with the agent catalog -/

theorem aligned_initialState : aligned initialState := by
  intro g hg
  simp only [initialState, DEFAULT_GROUPS, List.mem_cons, List.mem_singleton,
    List.not_mem_nil, or_false] at hg
  rcases hg with rfl | rfl | rfl | rfl <;> rfl

theorem arrayWrite_length_of_lt (xs : List Slot) (i : Nat) (v : JSNum)
    (h : i < xs.length) : (arrayWrite xs i v).length = xs.length := by
  rw [arrayWrite_of_lt xs i v h, List.length_set]

/-- C19: the alignment predicate holds on the first-render state and after
`resetAll`; it is kept by `updateAgent`, by `updateGroup` on a field other than
`mix`, and by `updateMix` when `agentIdx` is below the number of agents.  In an
aligned state every index the aggregator reads in a mix is a position of that
mix.  The aggregator returns one summary per group, in group order, each with
one cost entry per agent, in agent order. -/
theorem aligned_invariant (s : AppState) :
    aligned initialState ∧
    aligned (resetAll s) ∧
    (∀ (id : Int) (field : AgentField) (value : field.type),
      aligned s → aligned (updateAgent id field value s)) ∧
    (∀ (id : Int) (field : GroupField) (value : field.type),
      field ≠ GroupField.mix → aligned s → aligned (updateGroup id field value s)) ∧
    (∀ (groupId : Int) (agentIdx : Nat) (value : JSNum),
      agentIdx < s.agents.length → aligned s →
      aligned (updateMix groupId agentIdx value s)) ∧
    (aligned s → ∀ g ∈ s.groups, ∀ i : Nat, i < s.agents.length →
      i < g.mix.length ∧ ∃ slot, g.mix[i]? = some slot) ∧
    (calculations s.agents s.groups s.license).length = s.groups.length ∧
    (∀ (k : Nat) (g : Group), s.groups[k]? = some g →
      ∃ r, (calculations s.agents s.groups s.license)[k]? = some r ∧
        r.group = g.name ∧
        r.agentCosts.length = s.agents.length ∧
        r.agentCosts.map AgentCost.agent = s.agents.map Agent.name) := by
  refine ⟨aligned_initialState, ?_, ?_, ?_, ?_, ?_, ?_, ?_⟩
  · exact aligned_initialState
  · intro id field value h g hg
    simpa [updateAgent] using h g hg
  · intro id field value hf h g hg
    simp only [updateGroup, List.mem_map] at hg
    obtain ⟨g0, hg0, rfl⟩ := hg
    have h0 := h g0 hg0
    by_cases hid : g0.id = id
    · rw [if_pos hid]
      cases field <;> first | exact h0 | exact absurd rfl hf
    · rw [if_neg hid]
      exact h0
  · intro groupId agentIdx value hidx h g hg
    simp only [updateMix, List.mem_map] at hg
    obtain ⟨g0, hg0, rfl⟩ := hg
    have h0 := h g0 hg0
    by_cases hid : g0.id ≠ groupId
    · rw [if_pos hid]
      exact h0
    · rw [if_neg hid]
      show (arrayWrite g0.mix agentIdx value).length = s.agents.length
      rw [arrayWrite_length_of_lt _ _ _ (by rw [h0]; exact hidx)]
      exact h0
  · intro h g hg i hi
    have hlt : i < g.mix.length := by rw [h g hg]; exact hi
    exact ⟨hlt, g.mix[i], List.getElem?_eq_getElem hlt⟩
  · simp [calculations]
  · intro k g hg
    refine ⟨groupCalc s.agents s.license g, ?_, rfl, ?_, ?_⟩
    · simp [calculations_getElem?, hg]
    · simp [groupCalc]
    · simp only [groupCalc]
      apply List.ext_getElem?
      intro i
      simp only [List.getElem?_map, List.getElem?_mapIdx]
      cases s.agents[i]? <;> simp [agentCostOf]

theorem aligned_invariant_witness :
    aligned initialState ∧
    GroupField.headcount ≠ GroupField.mix ∧
    aligned (updateGroup 2 GroupField.headcount (JSNum.fin 50) initialState) ∧
    3 < initialState.agents.length ∧
    aligned (updateMix 2 3 (JSNum.fin 35) initialState) ∧
    aligned (updateAgent 2 AgentField.turns (JSNum.fin 9) initialState) :=
  have h0 : aligned initialState := (aligned_invariant initialState).1
  have hf : GroupField.headcount ≠ GroupField.mix := by decide
  have h3 : 3 < initialState.agents.length := by decide
  ⟨h0, hf,
    (aligned_invariant initialState).2.2.2.1 2 GroupField.headcount (JSNum.fin 50) hf h0,
    h3, (aligned_invariant initialState).2.2.2.2.1 2 3 (JSNum.fin 35) h3 h0,
    (aligned_invariant initialState).2.2.1 2 AgentField.turns (JSNum.fin 9) h0⟩

/-! ## The two verdicts of the dashboard

The break-even panel tests `qCadence > Math.floor(license / costPerSession)`,
the "vs License" badge tests `qCadence * qConversation * qComputation > license`.
Each product and the quotient is rounded on its own, so the two tests can part
on the boundary `cadence * costPerSession = license`. -/

/-- C18, the claim refuted inside the sliders' ranges: with cadence 125, 1 turn,
0.07 per turn and license 8.75 the quotient `8.75 / 0.07` rounds to
`124.99999999999999`, so the break-even is 124 and the panel reads "1 over the
break-even", while `quickCost = 125 * 1 * 0.07` rounds to 8.75, which is not
`> 8.75`, so the badge reads "PAYGO saves" with the amount 0. -/
theorem verdicts_disagree_at_boundary :
    (boundaryScenario.qConversation * boundaryScenario.qComputation).gt 0 = true ∧
    be boundaryScenario.qConversation boundaryScenario.qComputation boundaryScenario.license =
      JSNum.fin 124 ∧
    over boundaryScenario.qCadence
      (be boundaryScenario.qConversation boundaryScenario.qComputation
        boundaryScenario.license) = true ∧
    breakEvenMessage boundaryScenario.qCadence
      (be boundaryScenario.qConversation boundaryScenario.qComputation
        boundaryScenario.license) =
      BreakEvenMessage.overBy (JSNum.fin 125) (JSNum.fin 1) ∧
    quickCost boundaryScenario = JSNum.fin (35 / 4) ∧
    (quickCost boundaryScenario).gt boundaryScenario.license = false ∧
    licenseBadge boundaryScenario = Badge.paygoSaves (JSNum.fin 0) := by
  have hcps : boundaryScenario.qConversation * boundaryScenario.qComputation =
      JSNum.fin (1261007895663739 / 18014398509481984) := by
    show JSNum.fin 1 * JSNum.lit (7 / 100) = _
    rw [lit_0_07, mul_1_d007]
  have hpos : (JSNum.fin (1261007895663739 / 18014398509481984)).gt 0 = true := by
    rw [jsnum_zero_def, jsnum_gt_fin]
    norm_num
  have hbe : be boundaryScenario.qConversation boundaryScenario.qComputation
      boundaryScenario.license = JSNum.fin 124 := by
    rw [be, hcps, if_pos hpos]
    show (JSNum.fin (35 / 4) / JSNum.fin (1261007895663739 / 18014398509481984)).floor = _
    rw [div_license_d007, JSNum.floor]
    norm_num
  have hq : quickCost boundaryScenario = JSNum.fin (35 / 4) := by
    show JSNum.fin 125 * JSNum.fin 1 * JSNum.lit (7 / 100) = _
    rw [lit_0_07, mul_125_1, mul_125_d007]
  have hover : over (JSNum.fin 125) (JSNum.fin 124) = true := by
    rw [over, jsnum_gt_fin]
    norm_num
  have hgt : (JSNum.fin (35 / 4)).gt (JSNum.fin (35 / 4)) = false := by
    rw [jsnum_gt_fin]
    simp
  refine ⟨?_, hbe, ?_, ?_, hq, ?_, ?_⟩
  · rw [hcps]
    exact hpos
  · rw [hbe]
    exact hover
  · rw [hbe]
    show breakEvenMessage (JSNum.fin 125) (JSNum.fin 124) = _
    simp [breakEvenMessage, hover, JSNum.strictEq, sub_125_124]
  · rw [hq]
    exact hgt
  · rw [licenseBadge, hq]
    show (if (JSNum.fin (35 / 4)).gt (JSNum.fin (35 / 4)) = true
      then Badge.licenseSaves (JSNum.fin (35 / 4) - JSNum.fin (35 / 4))
      else Badge.paygoSaves (JSNum.fin (35 / 4) - JSNum.fin (35 / 4))) = _
    rw [hgt, sub_license_quick]
    rfl

/-- C18 as amended: for a finite license, finite `conversationTurns = a` and
`costPerTurn = b` with `a * b > 0`, and a whole-number cadence `n`, suppose the
code's results carry no rounding error where the comparison uses them:
`costPerSession` is `a * b`, `quickCost` is `n * a * b`, and the floor of the
quotient `license / costPerSession` is the floor of the exact quotient.  Then
the cadence is over the break-even if and only if `quickCost > license`, the
badge reads "License saves" exactly when the panel's verdict is over, and
`quickCost <= license` for every cadence that is not over the break-even. -/
theorem verdicts_agree_when_exact (s : AppState) (l a b : ℚ) (n : ℕ)
    (hn : s.qCadence = JSNum.fin n) (ha : s.qConversation = JSNum.fin a)
    (hb : s.qComputation = JSNum.fin b) (hl : s.license = JSNum.fin l)
    (hab : 0 < a * b)
    (hexact : JSNum.fin a * JSNum.fin b = JSNum.fin (a * b))
    (hexactQuick : JSNum.fin n * JSNum.fin a * JSNum.fin b = JSNum.fin (n * a * b))
    (hexactFloor : (JSNum.fin l / (JSNum.fin a * JSNum.fin b)).floor =
      JSNum.fin (⌊l / (a * b)⌋ : ℤ)) :
    (over s.qCadence (be s.qConversation s.qComputation s.license) = true ↔
      (quickCost s).gt s.license = true) ∧
    ((∃ d, licenseBadge s = Badge.licenseSaves d) ↔
      classification s.qCadence (be s.qConversation s.qComputation s.license) =
        Classification.over) ∧
    (over s.qCadence (be s.qConversation s.qComputation s.license) = false →
      (quickCost s).le s.license = true) := by
  have hcps : s.qConversation * s.qComputation = JSNum.fin (a * b) := by
    rw [ha, hb, hexact]
  have hquick : quickCost s = JSNum.fin (n * a * b) := by
    rw [quickCost, hn, ha, hb, hexactQuick]
  have hfloor : (s.license / (s.qConversation * s.qComputation)).floor =
      JSNum.fin (⌊l / (a * b)⌋ : ℤ) := by
    rw [hl, ha, hb, hexactFloor]
  have hpos : (s.qConversation * s.qComputation).gt 0 = true := by
    rw [hcps, jsnum_zero_def, jsnum_gt_fin]
    exact decide_eq_true hab
  have hbe : be s.qConversation s.qComputation s.license =
      JSNum.fin (⌊l / (a * b)⌋ : ℤ) := by
    rw [be, if_pos hpos, hfloor]
  have hkey : ((⌊l / (a * b)⌋ : ℤ) : ℚ) < (n : ℚ) ↔ l < n * a * b := by
    have h1 : ((⌊l / (a * b)⌋ : ℤ) : ℚ) < (n : ℚ) ↔ l / (a * b) < ((n : ℤ) : ℚ) := by
      rw [← Int.floor_lt]
      exact_mod_cast Iff.rfl
    rw [h1, div_lt_iff₀ hab]
    simp [mul_assoc]
  have hiff : over s.qCadence (be s.qConversation s.qComputation s.license) = true ↔
      (quickCost s).gt s.license = true := by
    rw [hbe, hquick, hn, hl, over, jsnum_gt_fin, jsnum_gt_fin, decide_eq_true_iff,
      decide_eq_true_iff]
    exact hkey
  refine ⟨hiff, ?_, ?_⟩
  · constructor
    · rintro ⟨d, hd⟩
      have hgt : (quickCost s).gt s.license = true := by
        cases hq : (quickCost s).gt s.license
        · simp [licenseBadge, hq] at hd
        · rfl
      exact classification_of_over _ _ (hiff.mpr hgt)
    · intro hc
      have hov : over s.qCadence (be s.qConversation s.qComputation s.license) = true := by
        cases ho : over s.qCadence (be s.qConversation s.qComputation s.license)
        · rw [classification_of_not_over _ _ ho] at hc
          exact absurd hc (by decide)
        · rfl
      exact ⟨quickCost s - s.license, by simp [licenseBadge, hiff.mp hov]⟩
  · intro hno
    have hng : ¬ (l < n * a * b) := by
      intro hlt
      have := hiff.mpr (by
        rw [hquick, hl, jsnum_gt_fin]
        exact decide_eq_true hlt)
      rw [hno] at this
      exact absurd this (by decide)
    rw [hquick, hl, jsnum_le_fin]
    exact decide_eq_true (not_lt.mp hng)

theorem verdicts_agree_when_exact_witness :
    wholeScenario.qCadence = JSNum.fin (21 : ℕ) ∧
    wholeScenario.qConversation = JSNum.fin 4 ∧
    wholeScenario.qComputation = JSNum.fin (1 / 4) ∧
    wholeScenario.license = JSNum.fin 20 ∧
    (0 : ℚ) < 4 * (1 / 4) ∧
    JSNum.fin 4 * JSNum.fin (1 / 4) = JSNum.fin (4 * (1 / 4)) ∧
    JSNum.fin (21 : ℕ) * JSNum.fin 4 * JSNum.fin (1 / 4) = JSNum.fin ((21 : ℕ) * 4 * (1 / 4)) ∧
    (JSNum.fin 20 / (JSNum.fin 4 * JSNum.fin (1 / 4))).floor =
      JSNum.fin (⌊(20 : ℚ) / (4 * (1 / 4))⌋ : ℤ) ∧
    (over wholeScenario.qCadence
      (be wholeScenario.qConversation wholeScenario.qComputation wholeScenario.license) = true ↔
      (quickCost wholeScenario).gt wholeScenario.license = true) ∧
    (quickCost wholeScenario).gt wholeScenario.license = true := by
  have hcps : JSNum.fin 4 * JSNum.fin (1 / 4) = JSNum.fin (4 * (1 / 4)) := by
    rw [mul_4_quarter]
    norm_num
  have hquick : JSNum.fin (21 : ℕ) * JSNum.fin 4 * JSNum.fin (1 / 4) =
      JSNum.fin ((21 : ℕ) * 4 * (1 / 4)) := by
    show JSNum.fin 21 * JSNum.fin 4 * JSNum.fin (1 / 4) = _
    rw [mul_21_4, mul_84_quarter]
    norm_num
  have hfloor : (JSNum.fin 20 / (JSNum.fin 4 * JSNum.fin (1 / 4))).floor =
      JSNum.fin (⌊(20 : ℚ) / (4 * (1 / 4))⌋ : ℤ) := by
    rw [mul_4_quarter, div_20_1, JSNum.floor]
    norm_num
  have hgt : (quickCost wholeScenario).gt wholeScenario.license = true := by
    show (JSNum.fin 21 * JSNum.fin 4 * JSNum.fin (1 / 4)).gt (JSNum.fin 20) = true
    rw [mul_21_4, mul_84_quarter, jsnum_gt_fin]
    norm_num
  exact ⟨rfl, rfl, rfl, rfl, by norm_num, hcps, hquick, hfloor,
    (verdicts_agree_when_exact wholeScenario 20 4 (1 / 4) 21 rfl rfl rfl rfl (by norm_num)
      hcps hquick hfloor).1, hgt⟩

end CostModel
